import Mathlib

/-!
# instrset.h: selection of the instruction set and compiler workarounds

A shallow embedding of the preprocessor logic of `src/instrset.h` (vector class
library, version 2.02.02).  The header has no run-time code: it reads the
macros that the compiler and the caller have defined, defines a few more, and
prints diagnostics.  The embedding therefore is a pass over a macro table:

* `Macros` is the macro table.  A macro whose replacement value is read or
  kept by the header is an `Option Int` (`none`: not defined); a macro of
  which the header only tests `defined(...)` is a `Bool`.
* `State` is the macro table together with the diagnostics printed so far.
* every `#if` block of the header is one function `State → State`, in the
  order of the source, and `instrset_h` is their composition; the
  `#if`/`#elif` chain that picks the level is `detect_INSTRSET`.

Conventions of the embedding:

* inside `#if`, an identifier that is not a macro evaluates to `0`
  (`value`); the values of macros are integers as written and are only
  compared, except in the one arithmetic expression of the header, the
  version number of lines 119 and 124, which is evaluated in fixed width
  (`versionNumberAt`: 64 bits inside `#if`, 32 bits as an `int` expression);
* `#error` is recorded as a diagnostic and the pass goes on to the end of
  the header, so the final macro table exists for every input; the
  translation is failed exactly when an error was recorded (`State.fatal`);
* `#define` of a macro that is defined already replaces its value;
* the pass is the one over the body of the header (first inclusion, where
  the include guard `INSTRSET_H` is not defined yet); the `#include` lines
  and the `#undef` of `min`/`max` are outside the model.
-/

namespace InstrSet

/-- The macro table read and written by `instrset.h`. -/
structure Macros where
  -- language standard (lines 26-35)
  _MSVC_LANG : Option Int
  __cplusplus : Option Int
  -- output of line 40
  ALLOW_FP_PERMUTE : Option Int
  -- 64 bit mode (lines 43-46)
  _M_AMD64 : Bool
  _M_X64 : Bool
  __amd64 : Bool
  __x86_64__ : Option Int
  -- instruction set (lines 62-90)
  INSTRSET : Option Int
  __AVX512VL__ : Bool
  __AVX512BW__ : Bool
  __AVX512DQ__ : Bool
  __AVX512F__ : Bool
  __AVX512__ : Bool
  __AVX2__ : Bool
  __AVX__ : Bool
  __SSE4_2__ : Bool
  __SSE4_1__ : Bool
  __SSSE3__ : Bool
  __SSE3__ : Bool
  __SSE2__ : Bool
  __SSE__ : Bool
  _M_IX86_FP : Option Int
  -- FMA (lines 93-103)
  __FMA__ : Option Int
  DISABLE_WARNING_AVX2_WITHOUT_FMA : Bool
  -- compiler identity and version
  __GNUC__ : Option Int
  __GNUC_MINOR__ : Option Int
  __GNUC_PATCHLEVEL__ : Option Int
  __clang__ : Bool
  __clang_major__ : Option Int
  __clang_minor__ : Option Int
  __clang_patchlevel__ : Option Int
  __INTEL_COMPILER : Option Int
  _MSC_VER : Option Int
  __apple_build_version__ : Bool
  -- outputs of lines 117-128
  GCC_VERSION : Option Int
  CLANG_VERSION : Option Int
  -- outputs of lines 136-138 and 164-171
  NOMINMAX : Bool
  FIX_CLANG_VECTOR_ALIAS_AMBIGUITY : Bool
  ZEXT_MISSING : Bool
deriving DecidableEq

/-- The diagnostics the header can print. -/
inductive Diagnostic where
  /-- lines 29 and 33: `#error Please compile for C++17 or higher` -/
  | error_cpp17
  /-- line 98: `#pragma message "It is recommended to specify also option -mfma ..."` -/
  | message_fma
  /-- line 143: `Warning: MS compiler cannot generate code for AVX512F without AVX512DQ` -/
  | warning_ms_avx512f
  /-- line 146: `Warning: Your compiler has poor support for AVX512. ...` -/
  | warning_poor_avx512
  /-- line 152: `#error The Intel compiler version 19.00 cannot compile VCL version 2` -/
  | error_intel
deriving DecidableEq

/-- The diagnostics that come from `#error`. -/
def Diagnostic.isError : Diagnostic → Bool
  | .error_cpp17 => true
  | .error_intel => true
  | _ => false

/-- Macro table and the diagnostics printed so far (oldest first). -/
structure State where
  macros : Macros
  diagnostics : List Diagnostic
deriving DecidableEq

/-- Print one diagnostic. -/
def State.emit (s : State) (d : Diagnostic) : State :=
  { s with diagnostics := s.diagnostics ++ [d] }

/-- The translation is failed: some `#error` was reached. -/
def State.fatal (s : State) : Bool :=
  s.diagnostics.any Diagnostic.isError

/-- Preprocessor `defined(X)` for a macro with a value. -/
def defined (x : Option Int) : Bool := x.isSome

/-- Value of `X` inside `#if`: an identifier that is not a macro is `0`. -/
def value (x : Option Int) : Int := x.getD 0

/-- Lines 26-35: check if compiled for C++17. -/
def check_cpp17 (s : State) : State :=
  if defined s.macros._MSVC_LANG then
    if value s.macros._MSVC_LANG < 201703 then s.emit .error_cpp17 else s
  else
    if value s.macros.__cplusplus < 201703 then s.emit .error_cpp17 else s

/-- Line 40: `#define ALLOW_FP_PERMUTE  true` (`true` is `1` for the preprocessor). -/
def define_ALLOW_FP_PERMUTE (s : State) : State :=
  { s with macros := { s.macros with ALLOW_FP_PERMUTE := some 1 } }

/-- Lines 43-46: macro to indicate 64 bit mode. -/
def define_x86_64 (s : State) : State :=
  if (s.macros._M_AMD64 || s.macros._M_X64 || s.macros.__amd64)
      && !defined s.macros.__x86_64__ then
    { s with macros := { s.macros with __x86_64__ := some 1 } }
  else s

/-- Lines 65-89: the level found from the compiler macros, the `#if`/`#elif` chain
inside `#ifndef INSTRSET`. -/
def detect_INSTRSET (m : Macros) : Int :=
  if m.__AVX512VL__ && m.__AVX512BW__ && m.__AVX512DQ__ then 10
  else if m.__AVX512F__ || m.__AVX512__ then 9
  else if m.__AVX2__ then 8
  else if m.__AVX__ then 7
  else if m.__SSE4_2__ then 6
  else if m.__SSE4_1__ then 5
  else if m.__SSSE3__ then 4
  else if m.__SSE3__ then 3
  else if m.__SSE2__ || defined m.__x86_64__ then 2
  else if m.__SSE__ then 1
  else if defined m._M_IX86_FP then value m._M_IX86_FP
  else 0

/-- Lines 62-90: find instruction set from compiler macros if INSTRSET is not defined. -/
def select_INSTRSET (s : State) : State :=
  if defined s.macros.INSTRSET then s
  else { s with macros := { s.macros with INSTRSET := some (detect_INSTRSET s.macros) } }

/-- Lines 93-103: FMA is assumed with AVX2, except where the compiler wants the option. -/
def define_FMA (s : State) : State :=
  if value s.macros.INSTRSET ≥ 8 && !defined s.macros.__FMA__ then
    if defined s.macros.__GNUC__ && !defined s.macros.__INTEL_COMPILER then
      if !s.macros.DISABLE_WARNING_AVX2_WITHOUT_FMA then s.emit .message_fma else s
    else if !s.macros.__clang__ then
      { s with macros := { s.macros with __FMA__ := some 1 } }
    else s
  else s

/-- The value of `x` in a signed two's-complement integer type of `bits` bits: what an
operation whose exact result is `x` yields in that type. -/
def wrapSigned (bits : Nat) (x : Int) : Int :=
  (x + ((2 ^ (bits - 1) : Nat) : Int)) % ((2 ^ bits : Nat) : Int) - ((2 ^ (bits - 1) : Nat) : Int)

/-- The expression `major * 10000 + minor * 100 + patchlevel` of lines 119 and 124,
evaluated operation by operation in a signed integer type of `bits` bits. -/
def versionNumberAt (bits : Nat) (major minor patchlevel : Int) : Int :=
  wrapSigned bits
    (wrapSigned bits (wrapSigned bits (major * 10000) + wrapSigned bits (minor * 100))
      + patchlevel)

/-- The value of `GCC_VERSION` and `CLANG_VERSION` inside `#if`, where the expression of
lines 119 and 124 is evaluated in `intmax_t`, 64 bits. -/
def versionNumber (major minor patchlevel : Int) : Int :=
  versionNumberAt 64 major minor patchlevel

/-- Lines 117-120: GCC version. -/
def define_GCC_VERSION (s : State) : State :=
  if defined s.macros.__GNUC__ && !defined s.macros.GCC_VERSION && !s.macros.__clang__ then
    { s with macros := { s.macros with
        GCC_VERSION := some (versionNumber (value s.macros.__GNUC__)
          (value s.macros.__GNUC_MINOR__) (value s.macros.__GNUC_PATCHLEVEL__)) } }
  else s

/-- Lines 122-128: Clang version. -/
def define_CLANG_VERSION (s : State) : State :=
  if s.macros.__clang__ then
    { s with macros := { s.macros with
        CLANG_VERSION := some (versionNumber (value s.macros.__clang_major__)
          (value s.macros.__clang_minor__) (value s.macros.__clang_patchlevel__)) } }
  else s

/-- Lines 136-138: `#ifndef NOMINMAX` / `#define NOMINMAX`. -/
def define_NOMINMAX (s : State) : State :=
  if !s.macros.NOMINMAX then { s with macros := { s.macros with NOMINMAX := true } } else s

/-- Lines 142-144: warning for AVX512F without AVX512DQ. -/
def warn_ms_avx512f (s : State) : State :=
  if value s.macros.INSTRSET = 9 then s.emit .warning_ms_avx512f else s

/-- Lines 145-147: warning for poor support for AVX512. -/
def warn_poor_avx512 (s : State) : State :=
  if value s.macros._MSC_VER < 1920 && value s.macros.INSTRSET > 8 then
    s.emit .warning_poor_avx512
  else s

/-- Lines 140-148: warnings for poor support for AVX512F in the MS compiler. -/
def warn_ms_compiler (s : State) : State :=
  if !defined s.macros.__INTEL_COMPILER && !s.macros.__clang__ then
    warn_poor_avx512 (warn_ms_avx512f s)
  else s

/-- Lines 130-149: the part for the Microsoft compiler. -/
def ms_compiler (s : State) : State :=
  if defined s.macros._MSC_VER then warn_ms_compiler (define_NOMINMAX s) else s

/-- Lines 151-153: the Intel compiler before version 2021 is refused. -/
def check_intel (s : State) : State :=
  if defined s.macros.__INTEL_COMPILER && value s.macros.__INTEL_COMPILER < 2021 then
    s.emit .error_intel
  else s

/-- Lines 164-166: Clang treats `__m128`, `__m128i` and `__m128d` as identical. -/
def define_FIX_CLANG (s : State) : State :=
  if (s.macros.__clang__ || s.macros.__apple_build_version__)
      && !defined s.macros.__INTEL_COMPILER then
    { s with macros := { s.macros with FIX_CLANG_VECTOR_ALIAS_AMBIGUITY := true } }
  else s

/-- Lines 168-171: Gcc 9 and earlier have no zero-extension functions. -/
def define_ZEXT_MISSING (s : State) : State :=
  if defined s.macros.__GNUC__ && value s.macros.__GNUC__ < 10 && !s.macros.__clang__ then
    { s with macros := { s.macros with ZEXT_MISSING := true } }
  else s

/-- The header, top to bottom, on the macro table `c` the compiler and the caller supply. -/
def instrset_h (c : Macros) : State :=
  define_ZEXT_MISSING <| define_FIX_CLANG <| check_intel <| ms_compiler <|
  define_CLANG_VERSION <| define_GCC_VERSION <| define_FMA <| select_INSTRSET <|
  define_x86_64 <| define_ALLOW_FP_PERMUTE <| check_cpp17 ⟨c, []⟩

/-- The resolved instruction-set level: the value of `INSTRSET` after the header. -/
def resolvedLevel (c : Macros) : Int := value (instrset_h c).macros.INSTRSET

/-- A table in which no macro is defined. -/
def Macros.none : Macros :=
  { _MSVC_LANG := .none, __cplusplus := .none, ALLOW_FP_PERMUTE := .none,
    _M_AMD64 := false, _M_X64 := false, __amd64 := false, __x86_64__ := .none,
    INSTRSET := .none,
    __AVX512VL__ := false, __AVX512BW__ := false, __AVX512DQ__ := false,
    __AVX512F__ := false, __AVX512__ := false, __AVX2__ := false, __AVX__ := false,
    __SSE4_2__ := false, __SSE4_1__ := false, __SSSE3__ := false, __SSE3__ := false,
    __SSE2__ := false, __SSE__ := false, _M_IX86_FP := .none,
    __FMA__ := .none, DISABLE_WARNING_AVX2_WITHOUT_FMA := false,
    __GNUC__ := .none, __GNUC_MINOR__ := .none, __GNUC_PATCHLEVEL__ := .none,
    __clang__ := false, __clang_major__ := .none, __clang_minor__ := .none,
    __clang_patchlevel__ := .none, __INTEL_COMPILER := .none, _MSC_VER := .none,
    __apple_build_version__ := false, GCC_VERSION := .none, CLANG_VERSION := .none,
    NOMINMAX := false, FIX_CLANG_VECTOR_ALIAS_AMBIGUITY := false, ZEXT_MISSING := false }


/-! ## Vocabulary of the specification -/

/-- The canonical 64-bit signal of the specification: one of the four macros
`_M_AMD64`, `_M_X64`, `__amd64`, `__x86_64__` is defined. -/
def canonical64 (c : Macros) : Bool :=
  c._M_AMD64 || c._M_X64 || c.__amd64 || defined c.__x86_64__

/-- The tier predicates P1..P10 of the specification (false for any other index). -/
def tier (c : Macros) : Nat → Bool
  | 10 => c.__AVX512VL__ && c.__AVX512BW__ && c.__AVX512DQ__
  | 9 => c.__AVX512F__ || c.__AVX512__
  | 8 => c.__AVX2__
  | 7 => c.__AVX__
  | 6 => c.__SSE4_2__
  | 5 => c.__SSE4_1__
  | 4 => c.__SSSE3__
  | 3 => c.__SSE3__
  | 2 => c.__SSE2__ || canonical64 c
  | 1 => c.__SSE__
  | _ => false

/-- Some SSE, AVX or AVX-512 capability macro is defined. -/
def anyCapability (c : Macros) : Bool :=
  c.__AVX512VL__ || c.__AVX512BW__ || c.__AVX512DQ__ || c.__AVX512F__ || c.__AVX512__ ||
  c.__AVX2__ || c.__AVX__ || c.__SSE4_2__ || c.__SSE4_1__ || c.__SSSE3__ || c.__SSE3__ ||
  c.__SSE2__ || c.__SSE__

/-- The capability signals and 64-bit target signals that a build can assert. -/
inductive Signal where
  | AVX512VL | AVX512BW | AVX512DQ | AVX512F | AVX512 | AVX2 | AVX
  | SSE4_2 | SSE4_1 | SSSE3 | SSE3 | SSE2 | SSE
  | M_AMD64 | M_X64 | amd64 | x86_64
deriving DecidableEq

/-- The macro of the signal is defined in `c`. -/
def Signal.asserted (c : Macros) : Signal → Bool
  | .AVX512VL => c.__AVX512VL__
  | .AVX512BW => c.__AVX512BW__
  | .AVX512DQ => c.__AVX512DQ__
  | .AVX512F => c.__AVX512F__
  | .AVX512 => c.__AVX512__
  | .AVX2 => c.__AVX2__
  | .AVX => c.__AVX__
  | .SSE4_2 => c.__SSE4_2__
  | .SSE4_1 => c.__SSE4_1__
  | .SSSE3 => c.__SSSE3__
  | .SSE3 => c.__SSE3__
  | .SSE2 => c.__SSE2__
  | .SSE => c.__SSE__
  | .M_AMD64 => c._M_AMD64
  | .M_X64 => c._M_X64
  | .amd64 => c.__amd64
  | .x86_64 => defined c.__x86_64__

/-- The table `c` with the macro of the signal not defined, all else as in `c`. -/
def Signal.without (c : Macros) : Signal → Macros
  | .AVX512VL => { c with __AVX512VL__ := false }
  | .AVX512BW => { c with __AVX512BW__ := false }
  | .AVX512DQ => { c with __AVX512DQ__ := false }
  | .AVX512F => { c with __AVX512F__ := false }
  | .AVX512 => { c with __AVX512__ := false }
  | .AVX2 => { c with __AVX2__ := false }
  | .AVX => { c with __AVX__ := false }
  | .SSE4_2 => { c with __SSE4_2__ := false }
  | .SSE4_1 => { c with __SSE4_1__ := false }
  | .SSSE3 => { c with __SSSE3__ := false }
  | .SSE3 => { c with __SSE3__ := false }
  | .SSE2 => { c with __SSE2__ := false }
  | .SSE => { c with __SSE__ := false }
  | .M_AMD64 => { c with _M_AMD64 := false }
  | .M_X64 => { c with _M_X64 := false }
  | .amd64 => { c with __amd64 := false }
  | .x86_64 => { c with __x86_64__ := none }

/-- The two tables are identical except that the signal `g` is absent in `c₁` and
asserted in `c₂`. -/
def Signal.addedTo (g : Signal) (c₁ c₂ : Macros) : Prop :=
  g.asserted c₁ = false ∧ g.asserted c₂ = true ∧ g.without c₂ = c₁

instance (g : Signal) (c₁ c₂ : Macros) : Decidable (g.addedTo c₁ c₂) := by
  unfold Signal.addedTo
  infer_instance

/-! ## Configurations used as examples -/

/-- A 64-bit GCC 13.2 build with every AVX-512 macro defined, in which the caller asks
for SSE2 by `-DINSTRSET=2`. -/
def avx512_pinned_sse2 : Macros :=
  { Macros.none with __cplusplus := some 201703, __x86_64__ := some 1, INSTRSET := some 2,
                     __AVX512VL__ := true, __AVX512BW__ := true, __AVX512DQ__ := true,
                     __AVX512F__ := true, __AVX2__ := true, __AVX__ := true, __SSE2__ := true,
                     __SSE__ := true, __FMA__ := some 1, __GNUC__ := some 13,
                     __GNUC_MINOR__ := some 2, __GNUC_PATCHLEVEL__ := some 0 }

/-- A 32-bit build with the Microsoft compiler and `/arch:SSE2`: the compiler defines
`_M_IX86_FP` as 2 and none of the `__SSE..__` macros. -/
def msvc32_sse2 : Macros :=
  { Macros.none with _MSVC_LANG := some 201703, __cplusplus := some 199711,
                     _M_IX86_FP := some 2, _MSC_VER := some 1930 }

/-- The build `msvc32_sse2` with `__SSE__` defined in addition. -/
def msvc32_sse2_SSE : Macros := { msvc32_sse2 with __SSE__ := true }

/-- A 64-bit GCC 13.2 build with `-mavx2` and no `-mfma`. -/
def gcc_avx2 : Macros :=
  { Macros.none with __cplusplus := some 201703, __x86_64__ := some 1,
                     __AVX2__ := true, __AVX__ := true, __SSE4_2__ := true, __SSE4_1__ := true,
                     __SSSE3__ := true, __SSE3__ := true, __SSE2__ := true, __SSE__ := true,
                     __GNUC__ := some 13, __GNUC_MINOR__ := some 2,
                     __GNUC_PATCHLEVEL__ := some 0 }

/-- A build in which, of all capability macros, only `__AVX512VL__`, `__AVX512BW__` and
`__AVX512DQ__` are defined, with `_M_IX86_FP` defined as 1. -/
def avx512_only_vl_bw_dq : Macros :=
  { Macros.none with __cplusplus := some 201703, __AVX512VL__ := true, __AVX512BW__ := true,
                     __AVX512DQ__ := true, _M_IX86_FP := some 1 }

/-- A 64-bit build with the Microsoft compiler and no `/arch` option: `_M_X64` and
`_M_AMD64` are defined, no `__SSE2__`. -/
def msvc64_plain : Macros :=
  { Macros.none with _MSVC_LANG := some 201703, __cplusplus := some 199711,
                     _M_AMD64 := true, _M_X64 := true, _MSC_VER := some 1930 }

/-- A C++17 build for a target without any of the recognised macros. -/
def plain_cpp17 : Macros := { Macros.none with __cplusplus := some 201703 }

/-- The language-standard value the compiler reports: `_MSVC_LANG` when it is defined,
otherwise `__cplusplus`. -/
def languageStandard (c : Macros) : Int :=
  if defined c._MSVC_LANG then value c._MSVC_LANG else value c.__cplusplus

/-- The compiler is of the GCC family for the FMA rule of line 95: `__GNUC__` is defined
and `__INTEL_COMPILER` is not. -/
def gccFamily (c : Macros) : Bool :=
  defined c.__GNUC__ && !defined c.__INTEL_COMPILER

/-- A 64-bit Clang 17.0.6 build in MSVC-compatible mode (clang-cl) for AVX2: `__clang__`
and `_MSC_VER` are defined, `__GNUC__` is not, and no FMA option is given. -/
def clang_cl_avx2 : Macros :=
  { Macros.none with _MSVC_LANG := some 201703, __cplusplus := some 201703,
                     _M_AMD64 := true, _M_X64 := true, __x86_64__ := some 1,
                     __AVX2__ := true, __AVX__ := true, __SSE4_2__ := true, __SSE4_1__ := true,
                     __SSSE3__ := true, __SSE3__ := true, __SSE2__ := true, __SSE__ := true,
                     __clang__ := true, __clang_major__ := some 17, __clang_minor__ := some 0,
                     __clang_patchlevel__ := some 6, _MSC_VER := some 1938 }

/-- A 64-bit build with the Microsoft compiler and `/arch:AVX2`. -/
def msvc64_avx2 : Macros :=
  { Macros.none with _MSVC_LANG := some 201703, __cplusplus := some 199711,
                     _M_AMD64 := true, _M_X64 := true, __AVX2__ := true, __AVX__ := true,
                     _MSC_VER := some 1938 }

/-- The build `gcc_avx2` compiled with `-std=c++14`. -/
def gcc_avx2_cpp14 : Macros := { gcc_avx2 with __cplusplus := some 201402 }

/-- A 64-bit Clang 15.0.7 build in which the caller has defined `CLANG_VERSION` as 1500
before the header. -/
def clang_pinned_version : Macros :=
  { Macros.none with __cplusplus := some 201703, __x86_64__ := some 1, __SSE2__ := true,
                     __SSE__ := true, __GNUC__ := some 4, __GNUC_MINOR__ := some 2,
                     __GNUC_PATCHLEVEL__ := some 1, __clang__ := true,
                     __clang_major__ := some 15, __clang_minor__ := some 0,
                     __clang_patchlevel__ := some 7, CLANG_VERSION := some 1500 }

/-- The table `c` with none of the four 64-bit macros defined, all else as in `c`. -/
def Macros.without64 (c : Macros) : Macros :=
  { c with _M_AMD64 := false, _M_X64 := false, __amd64 := false, __x86_64__ := Option.none }

/-- A 64-bit GCC 9.4 build for plain x86-64. -/
def gcc9 : Macros :=
  { Macros.none with __cplusplus := some 201703, __x86_64__ := some 1, __SSE2__ := true,
                     __SSE__ := true, __GNUC__ := some 9, __GNUC_MINOR__ := some 4,
                     __GNUC_PATCHLEVEL__ := some 0 }

/-- A 64-bit GCC 12.3 build for plain x86-64 in which the caller has defined
`ZEXT_MISSING` before the header. -/
def gcc12_zext_pinned : Macros :=
  { Macros.none with __cplusplus := some 201703, __x86_64__ := some 1, __SSE2__ := true,
                     __SSE__ := true, __GNUC__ := some 12, __GNUC_MINOR__ := some 3,
                     __GNUC_PATCHLEVEL__ := some 0, ZEXT_MISSING := true }

/-- The build `gcc12_zext_pinned` without the caller's definition of `ZEXT_MISSING`. -/
def gcc12 : Macros := { gcc12_zext_pinned with ZEXT_MISSING := false }

/-- A 64-bit build with the Microsoft compiler 19.16 (Visual Studio 2017) and
`/arch:AVX512`, which defines `__AVX512F__` and the other AVX-512 macros. -/
def msvc64_avx512 : Macros :=
  { Macros.none with _MSVC_LANG := some 201703, __cplusplus := some 199711,
                     _M_AMD64 := true, _M_X64 := true, __AVX512VL__ := true,
                     __AVX512BW__ := true, __AVX512DQ__ := true, __AVX512F__ := true,
                     __AVX2__ := true, __AVX__ := true, _MSC_VER := some 1916 }

/-- A 64-bit build that indicates the target only by `__amd64`; no capability macro is
defined. -/
def amd64_only : Macros :=
  { Macros.none with __cplusplus := some 201703, __amd64 := true }

/-- The build `amd64_only` with the target indicated only by `_M_X64` instead. -/
def x64_only : Macros :=
  { Macros.none with __cplusplus := some 201703, _M_X64 := true }

/-- The build `gcc_avx2` of a compiler that reports version 1.0.0. -/
def gcc_major_one : Macros :=
  { gcc_avx2 with __GNUC__ := some 1, __GNUC_MINOR__ := some 0, __GNUC_PATCHLEVEL__ := some 0 }

/-- The build `gcc_avx2` in which `__GNUC__` is 1000000000000000 (10^15), a value that
fits 64 bits while its product with 10000 does not. -/
def gcc_major_huge : Macros :=
  { gcc_avx2 with __GNUC__ := some 1000000000000000, __GNUC_MINOR__ := some 0,
                  __GNUC_PATCHLEVEL__ := some 0 }

/-! ## The macro table after each block -/

theorem check_cpp17_macros (s : State) : (check_cpp17 s).macros = s.macros := by
  unfold check_cpp17; split_ifs <;> rfl

theorem define_ALLOW_FP_PERMUTE_macros (s : State) :
    (define_ALLOW_FP_PERMUTE s).macros = { s.macros with ALLOW_FP_PERMUTE := some 1 } := rfl

theorem define_x86_64_macros (s : State) :
    (define_x86_64 s).macros =
      { s.macros with
        __x86_64__ := if (s.macros._M_AMD64 || s.macros._M_X64 || s.macros.__amd64)
                          && !defined s.macros.__x86_64__
                      then some 1 else s.macros.__x86_64__ } := by
  unfold define_x86_64
  split_ifs <;> rfl

theorem select_INSTRSET_macros (s : State) :
    (select_INSTRSET s).macros =
      { s.macros with INSTRSET := some (match s.macros.INSTRSET with
                                        | some v => v
                                        | none => detect_INSTRSET s.macros) } := by
  unfold select_INSTRSET
  cases hI : s.macros.INSTRSET with
  | some v => simp only [defined, Option.isSome_some, if_true]; rw [← hI]
  | none => simp only [defined, Option.isSome_none, Bool.false_eq_true, if_false]

theorem define_FMA_macros (s : State) :
    (define_FMA s).macros =
      { s.macros with
        __FMA__ := if (value s.macros.INSTRSET ≥ 8 && !defined s.macros.__FMA__)
                       && !(defined s.macros.__GNUC__ && !defined s.macros.__INTEL_COMPILER)
                       && !s.macros.__clang__
                   then some 1 else s.macros.__FMA__ } := by
  unfold define_FMA
  split_ifs <;> first | rfl | (exfalso; simp_all)

theorem define_GCC_VERSION_macros (s : State) :
    (define_GCC_VERSION s).macros =
      { s.macros with
        GCC_VERSION := if defined s.macros.__GNUC__ && !defined s.macros.GCC_VERSION
                            && !s.macros.__clang__
                       then some (versionNumber (value s.macros.__GNUC__)
                              (value s.macros.__GNUC_MINOR__) (value s.macros.__GNUC_PATCHLEVEL__))
                       else s.macros.GCC_VERSION } := by
  unfold define_GCC_VERSION
  split_ifs <;> rfl

theorem define_CLANG_VERSION_macros (s : State) :
    (define_CLANG_VERSION s).macros =
      { s.macros with
        CLANG_VERSION := if s.macros.__clang__
                         then some (versionNumber (value s.macros.__clang_major__)
                              (value s.macros.__clang_minor__) (value s.macros.__clang_patchlevel__))
                         else s.macros.CLANG_VERSION } := by
  unfold define_CLANG_VERSION
  split_ifs <;> rfl

theorem define_FIX_CLANG_macros (s : State) :
    (define_FIX_CLANG s).macros =
      { s.macros with
        FIX_CLANG_VECTOR_ALIAS_AMBIGUITY :=
          if (s.macros.__clang__ || s.macros.__apple_build_version__)
              && !defined s.macros.__INTEL_COMPILER
          then true else s.macros.FIX_CLANG_VECTOR_ALIAS_AMBIGUITY } := by
  unfold define_FIX_CLANG
  split_ifs <;> rfl

theorem define_ZEXT_MISSING_macros (s : State) :
    (define_ZEXT_MISSING s).macros =
      { s.macros with
        ZEXT_MISSING := if defined s.macros.__GNUC__ && value s.macros.__GNUC__ < 10
                            && !s.macros.__clang__
                        then true else s.macros.ZEXT_MISSING } := by
  unfold define_ZEXT_MISSING
  split_ifs <;> rfl

theorem warn_ms_avx512f_macros (s : State) : (warn_ms_avx512f s).macros = s.macros := by
  unfold warn_ms_avx512f; split_ifs <;> rfl

theorem warn_poor_avx512_macros (s : State) : (warn_poor_avx512 s).macros = s.macros := by
  unfold warn_poor_avx512; split_ifs <;> rfl

theorem define_NOMINMAX_macros (s : State) :
    (define_NOMINMAX s).macros = { s.macros with NOMINMAX := true } := by
  unfold define_NOMINMAX
  split_ifs with h
  · rfl
  · have : s.macros.NOMINMAX = true := by simpa using h
    rw [← this]

theorem warn_ms_compiler_macros (s : State) : (warn_ms_compiler s).macros = s.macros := by
  unfold warn_ms_compiler
  split_ifs
  · rw [warn_poor_avx512_macros, warn_ms_avx512f_macros]
  · rfl

theorem ms_compiler_macros (s : State) :
    (ms_compiler s).macros =
      if defined s.macros._MSC_VER then { s.macros with NOMINMAX := true } else s.macros := by
  unfold ms_compiler
  split_ifs
  · rw [warn_ms_compiler_macros, define_NOMINMAX_macros]
  · rfl

theorem check_intel_macros (s : State) : (check_intel s).macros = s.macros := by
  unfold check_intel; split_ifs <;> rfl

/-! ## The macro table after the header -/

theorem defined_x86_64_after (a b d : Bool) (x : Option Int) :
    defined (if (a || b || d) && !defined x then some 1 else x) = (a || b || d || defined x) := by
  cases a <;> cases b <;> cases d <;> cases x <;> simp [defined]

/-- `INSTRSET` after the header, read off the macro table the caller supplies: the
supplied value, or the first tier that holds from the top, or `_M_IX86_FP`, or 0. -/
theorem INSTRSET_after (c : Macros) :
    (instrset_h c).macros.INSTRSET = some (match c.INSTRSET with
      | some v => v
      | none =>
        if tier c 10 then 10 else if tier c 9 then 9 else if tier c 8 then 8
        else if tier c 7 then 7 else if tier c 6 then 6 else if tier c 5 then 5
        else if tier c 4 then 4 else if tier c 3 then 3 else if tier c 2 then 2
        else if tier c 1 then 1 else value c._M_IX86_FP) := by
  unfold instrset_h
  simp only [define_ZEXT_MISSING_macros, define_FIX_CLANG_macros, check_intel_macros,
    ms_compiler_macros, define_CLANG_VERSION_macros, define_GCC_VERSION_macros,
    define_FMA_macros, select_INSTRSET_macros, define_x86_64_macros,
    define_ALLOW_FP_PERMUTE_macros, check_cpp17_macros, apply_ite Macros.INSTRSET, ite_self]
  cases c.INSTRSET with
  | some v => rfl
  | none =>
    simp only [detect_INSTRSET, defined_x86_64_after, tier, canonical64]
    cases c._M_IX86_FP <;> simp [defined, value]

/-- Value of `INSTRSET` after the header, as the number `resolvedLevel`. -/
theorem resolvedLevel_eq (c : Macros) (v : Int) (h : (instrset_h c).macros.INSTRSET = some v) :
    resolvedLevel c = v := by
  simp [resolvedLevel, value, h]

/-- With no level supplied, the resolved level is the first tier that holds, from the top. -/
theorem resolvedLevel_detect (c : Macros) (h : c.INSTRSET = none) :
    resolvedLevel c =
      if tier c 10 then 10 else if tier c 9 then 9 else if tier c 8 then 8
      else if tier c 7 then 7 else if tier c 6 then 6 else if tier c 5 then 5
      else if tier c 4 then 4 else if tier c 3 then 3 else if tier c 2 then 2
      else if tier c 1 then 1 else value c._M_IX86_FP := by
  apply resolvedLevel_eq
  rw [INSTRSET_after, h]

/-- `__FMA__` after the header, read off the macro table the caller supplies. -/
theorem FMA_after (c : Macros) :
    (instrset_h c).macros.__FMA__ =
      if (resolvedLevel c ≥ 8 && !defined c.__FMA__)
          && !(defined c.__GNUC__ && !defined c.__INTEL_COMPILER) && !c.__clang__
      then some 1 else c.__FMA__ := by
  unfold resolvedLevel instrset_h
  simp only [define_ZEXT_MISSING_macros, define_FIX_CLANG_macros, check_intel_macros,
    ms_compiler_macros, define_CLANG_VERSION_macros, define_GCC_VERSION_macros,
    define_FMA_macros, select_INSTRSET_macros, define_x86_64_macros,
    define_ALLOW_FP_PERMUTE_macros, check_cpp17_macros, apply_ite Macros.__FMA__,
    apply_ite Macros.INSTRSET, ite_self]

/-- `__x86_64__` after the header, read off the macro table the caller supplies. -/
theorem x86_64_after (c : Macros) :
    (instrset_h c).macros.__x86_64__ =
      if (c._M_AMD64 || c._M_X64 || c.__amd64) && !defined c.__x86_64__
      then some 1 else c.__x86_64__ := by
  unfold instrset_h
  simp only [define_ZEXT_MISSING_macros, define_FIX_CLANG_macros, check_intel_macros,
    ms_compiler_macros, define_CLANG_VERSION_macros, define_GCC_VERSION_macros,
    define_FMA_macros, select_INSTRSET_macros, define_x86_64_macros,
    define_ALLOW_FP_PERMUTE_macros, check_cpp17_macros, apply_ite Macros.__x86_64__, ite_self]

/-- `GCC_VERSION` after the header, read off the macro table the caller supplies. -/
theorem GCC_VERSION_after (c : Macros) :
    (instrset_h c).macros.GCC_VERSION =
      if defined c.__GNUC__ && !defined c.GCC_VERSION && !c.__clang__
      then some (versionNumber (value c.__GNUC__) (value c.__GNUC_MINOR__)
        (value c.__GNUC_PATCHLEVEL__))
      else c.GCC_VERSION := by
  unfold instrset_h
  simp only [define_ZEXT_MISSING_macros, define_FIX_CLANG_macros, check_intel_macros,
    ms_compiler_macros, define_CLANG_VERSION_macros, define_GCC_VERSION_macros,
    define_FMA_macros, select_INSTRSET_macros, define_x86_64_macros,
    define_ALLOW_FP_PERMUTE_macros, check_cpp17_macros, apply_ite Macros.GCC_VERSION, ite_self]

/-- `CLANG_VERSION` after the header, read off the macro table the caller supplies. -/
theorem CLANG_VERSION_after (c : Macros) :
    (instrset_h c).macros.CLANG_VERSION =
      if c.__clang__
      then some (versionNumber (value c.__clang_major__) (value c.__clang_minor__)
        (value c.__clang_patchlevel__))
      else c.CLANG_VERSION := by
  unfold instrset_h
  simp only [define_ZEXT_MISSING_macros, define_FIX_CLANG_macros, check_intel_macros,
    ms_compiler_macros, define_CLANG_VERSION_macros, define_GCC_VERSION_macros,
    define_FMA_macros, select_INSTRSET_macros, define_x86_64_macros,
    define_ALLOW_FP_PERMUTE_macros, check_cpp17_macros, apply_ite Macros.CLANG_VERSION,
    ite_self]

/-- The values the caller has pinned for `INSTRSET`, `__x86_64__`, `__FMA__` and
`GCC_VERSION` are the values after the header. -/
theorem pinned_values_kept (c : Macros) (v : Int) :
    (c.INSTRSET = some v → (instrset_h c).macros.INSTRSET = some v) ∧
    (c.__x86_64__ = some v → (instrset_h c).macros.__x86_64__ = some v) ∧
    (c.__FMA__ = some v → (instrset_h c).macros.__FMA__ = some v) ∧
    (c.GCC_VERSION = some v → (instrset_h c).macros.GCC_VERSION = some v) := by
  refine ⟨?_, ?_, ?_, ?_⟩
  · intro h; rw [INSTRSET_after, h]
  · intro h; rw [x86_64_after, h]; simp [defined]
  · intro h; rw [FMA_after, h]; simp [defined]
  · intro h; rw [GCC_VERSION_after, h]; simp [defined]

/-! ## The diagnostics of each block, and of the header -/

theorem check_cpp17_diagnostics (s : State) :
    (check_cpp17 s).diagnostics =
      s.diagnostics ++ if languageStandard s.macros < 201703 then [.error_cpp17] else [] := by
  unfold check_cpp17 languageStandard State.emit
  split_ifs <;> simp

theorem define_ALLOW_FP_PERMUTE_diagnostics (s : State) :
    (define_ALLOW_FP_PERMUTE s).diagnostics = s.diagnostics := rfl

theorem define_x86_64_diagnostics (s : State) :
    (define_x86_64 s).diagnostics = s.diagnostics := by
  unfold define_x86_64; split_ifs <;> rfl

theorem select_INSTRSET_diagnostics (s : State) :
    (select_INSTRSET s).diagnostics = s.diagnostics := by
  unfold select_INSTRSET; split_ifs <;> rfl

theorem define_FMA_diagnostics (s : State) :
    (define_FMA s).diagnostics =
      s.diagnostics ++
        if (value s.macros.INSTRSET ≥ 8 && !defined s.macros.__FMA__) && gccFamily s.macros
            && !s.macros.DISABLE_WARNING_AVX2_WITHOUT_FMA
        then [.message_fma] else [] := by
  unfold define_FMA gccFamily State.emit
  generalize (decide (value s.macros.INSTRSET ≥ 8) && !defined s.macros.__FMA__) = a
  generalize (defined s.macros.__GNUC__ && !defined s.macros.__INTEL_COMPILER) = b
  generalize s.macros.DISABLE_WARNING_AVX2_WITHOUT_FMA = d
  generalize s.macros.__clang__ = e
  cases a <;> cases b <;> cases d <;> cases e <;> simp

theorem define_GCC_VERSION_diagnostics (s : State) :
    (define_GCC_VERSION s).diagnostics = s.diagnostics := by
  unfold define_GCC_VERSION; split_ifs <;> rfl

theorem define_CLANG_VERSION_diagnostics (s : State) :
    (define_CLANG_VERSION s).diagnostics = s.diagnostics := by
  unfold define_CLANG_VERSION; split_ifs <;> rfl

theorem define_NOMINMAX_diagnostics (s : State) :
    (define_NOMINMAX s).diagnostics = s.diagnostics := by
  unfold define_NOMINMAX; split_ifs <;> rfl

theorem warn_ms_avx512f_diagnostics (s : State) :
    (warn_ms_avx512f s).diagnostics =
      s.diagnostics ++ if value s.macros.INSTRSET = 9 then [.warning_ms_avx512f] else [] := by
  unfold warn_ms_avx512f State.emit
  split_ifs <;> simp

theorem warn_poor_avx512_diagnostics (s : State) :
    (warn_poor_avx512 s).diagnostics =
      s.diagnostics ++
        if value s.macros._MSC_VER < 1920 && value s.macros.INSTRSET > 8
        then [.warning_poor_avx512] else [] := by
  unfold warn_poor_avx512 State.emit
  split_ifs <;> simp

theorem ms_compiler_diagnostics (s : State) :
    (ms_compiler s).diagnostics =
      s.diagnostics ++
        ((if defined s.macros._MSC_VER
              && (!defined s.macros.__INTEL_COMPILER && !s.macros.__clang__)
              && decide (value s.macros.INSTRSET = 9)
          then [.warning_ms_avx512f] else []) ++
         (if defined s.macros._MSC_VER
              && (!defined s.macros.__INTEL_COMPILER && !s.macros.__clang__)
              && (decide (value s.macros._MSC_VER < 1920) && decide (value s.macros.INSTRSET > 8))
          then [.warning_poor_avx512] else [])) := by
  unfold ms_compiler warn_ms_compiler
  simp only [define_NOMINMAX_macros, warn_poor_avx512_diagnostics, warn_ms_avx512f_diagnostics,
    warn_ms_avx512f_macros, define_NOMINMAX_diagnostics, apply_ite State.diagnostics]
  generalize defined s.macros._MSC_VER = a
  generalize (!defined s.macros.__INTEL_COMPILER && !s.macros.__clang__) = b
  generalize (decide (value s.macros._MSC_VER < 1920) && decide (value s.macros.INSTRSET > 8)) = e
  by_cases h9 : value s.macros.INSTRSET = 9 <;> cases a <;> cases b <;> cases e <;> simp [h9]

theorem check_intel_diagnostics (s : State) :
    (check_intel s).diagnostics =
      s.diagnostics ++
        if defined s.macros.__INTEL_COMPILER && value s.macros.__INTEL_COMPILER < 2021
        then [.error_intel] else [] := by
  unfold check_intel State.emit
  split_ifs <;> simp

theorem define_FIX_CLANG_diagnostics (s : State) :
    (define_FIX_CLANG s).diagnostics = s.diagnostics := by
  unfold define_FIX_CLANG; split_ifs <;> rfl

theorem define_ZEXT_MISSING_diagnostics (s : State) :
    (define_ZEXT_MISSING s).diagnostics = s.diagnostics := by
  unfold define_ZEXT_MISSING; split_ifs <;> rfl

/-- The diagnostics of the header, in the order printed, read off the macro table the
caller supplies. -/
theorem diagnostics_after (c : Macros) :
    (instrset_h c).diagnostics =
      (if languageStandard c < 201703 then [.error_cpp17] else []) ++
      ((if (resolvedLevel c ≥ 8 && !defined c.__FMA__) && gccFamily c
            && !c.DISABLE_WARNING_AVX2_WITHOUT_FMA
        then [.message_fma] else []) ++
      ((if defined c._MSC_VER && (!defined c.__INTEL_COMPILER && !c.__clang__)
            && decide (resolvedLevel c = 9)
        then [.warning_ms_avx512f] else []) ++
      ((if defined c._MSC_VER && (!defined c.__INTEL_COMPILER && !c.__clang__)
            && (decide (value c._MSC_VER < 1920) && decide (resolvedLevel c > 8))
        then [.warning_poor_avx512] else []) ++
      (if defined c.__INTEL_COMPILER && value c.__INTEL_COMPILER < 2021
        then [.error_intel] else [])))) := by
  unfold resolvedLevel instrset_h
  simp only [define_ZEXT_MISSING_diagnostics, define_FIX_CLANG_diagnostics,
    check_intel_diagnostics, ms_compiler_diagnostics, define_CLANG_VERSION_diagnostics,
    define_GCC_VERSION_diagnostics, define_FMA_diagnostics, select_INSTRSET_diagnostics,
    define_x86_64_diagnostics, define_ALLOW_FP_PERMUTE_diagnostics, check_cpp17_diagnostics,
    define_ZEXT_MISSING_macros, define_FIX_CLANG_macros, check_intel_macros,
    ms_compiler_macros, define_CLANG_VERSION_macros, define_GCC_VERSION_macros,
    define_FMA_macros, select_INSTRSET_macros, define_x86_64_macros,
    define_ALLOW_FP_PERMUTE_macros, check_cpp17_macros, apply_ite Macros.INSTRSET,
    apply_ite Macros._MSC_VER, apply_ite Macros.__INTEL_COMPILER, apply_ite Macros.__clang__,
    ite_self, gccFamily, List.nil_append, List.append_assoc]

/-! ## The priority chain, for arbitrary tier predicates -/

/-- The chain yields a tier that holds, or the fallback `f` when no tier holds. -/
theorem chain_cases (t : Nat → Bool) (f : Int) :
    (∃ k : Nat, 1 ≤ k ∧ k ≤ 10 ∧ t k = true ∧
      (if t 10 then 10 else if t 9 then 9 else if t 8 then 8
        else if t 7 then 7 else if t 6 then 6 else if t 5 then 5
        else if t 4 then 4 else if t 3 then 3 else if t 2 then 2
        else if t 1 then 1 else f) = (k : Int)) ∨
    ((∀ j : Nat, 1 ≤ j → j ≤ 10 → t j = false) ∧
      (if t 10 then 10 else if t 9 then 9 else if t 8 then 8
        else if t 7 then 7 else if t 6 then 6 else if t 5 then 5
        else if t 4 then 4 else if t 3 then 3 else if t 2 then 2
        else if t 1 then 1 else f) = f) := by
  by_cases a10 : t 10 = true
  · exact Or.inl ⟨10, by norm_num, le_refl _, a10, by rw [if_pos a10]; rfl⟩
  rw [if_neg a10]
  by_cases a9 : t 9 = true
  · exact Or.inl ⟨9, by norm_num, by norm_num, a9, by rw [if_pos a9]; rfl⟩
  rw [if_neg a9]
  by_cases a8 : t 8 = true
  · exact Or.inl ⟨8, by norm_num, by norm_num, a8, by rw [if_pos a8]; rfl⟩
  rw [if_neg a8]
  by_cases a7 : t 7 = true
  · exact Or.inl ⟨7, by norm_num, by norm_num, a7, by rw [if_pos a7]; rfl⟩
  rw [if_neg a7]
  by_cases a6 : t 6 = true
  · exact Or.inl ⟨6, by norm_num, by norm_num, a6, by rw [if_pos a6]; rfl⟩
  rw [if_neg a6]
  by_cases a5 : t 5 = true
  · exact Or.inl ⟨5, by norm_num, by norm_num, a5, by rw [if_pos a5]; rfl⟩
  rw [if_neg a5]
  by_cases a4 : t 4 = true
  · exact Or.inl ⟨4, by norm_num, by norm_num, a4, by rw [if_pos a4]; rfl⟩
  rw [if_neg a4]
  by_cases a3 : t 3 = true
  · exact Or.inl ⟨3, by norm_num, by norm_num, a3, by rw [if_pos a3]; rfl⟩
  rw [if_neg a3]
  by_cases a2 : t 2 = true
  · exact Or.inl ⟨2, by norm_num, by norm_num, a2, by rw [if_pos a2]; rfl⟩
  rw [if_neg a2]
  by_cases a1 : t 1 = true
  · exact Or.inl ⟨1, by norm_num, by norm_num, a1, by rw [if_pos a1]; rfl⟩
  rw [if_neg a1]
  refine Or.inr ⟨?_, rfl⟩
  intro j hj1 hj10
  interval_cases j <;> apply eq_false_of_ne_true <;> assumption

/-- The chain yields `k` when `t k` holds and no higher tier does. -/
theorem chain_eq_greatest (t : Nat → Bool) (f : Int) (k : Nat) (hk1 : 1 ≤ k) (hk10 : k ≤ 10)
    (hk : t k = true) (hj : ∀ j : Nat, k < j → j ≤ 10 → t j = false) :
    (if t 10 then 10 else if t 9 then 9 else if t 8 then 8
      else if t 7 then 7 else if t 6 then 6 else if t 5 then 5
      else if t 4 then 4 else if t 3 then 3 else if t 2 then 2
      else if t 1 then 1 else f) = (k : Int) := by
  have h2 := hj 2; have h3 := hj 3; have h4 := hj 4; have h5 := hj 5; have h6 := hj 6
  have h7 := hj 7; have h8 := hj 8; have h9 := hj 9; have h10 := hj 10
  interval_cases k <;> simp_all

/-- The chain is never below a tier that holds. -/
theorem chain_ge_tier (t : Nat → Bool) (f : Int) (k : Nat) (hk1 : 1 ≤ k) (hk10 : k ≤ 10)
    (hk : t k = true) :
    (k : Int) ≤ (if t 10 then 10 else if t 9 then 9 else if t 8 then 8
      else if t 7 then 7 else if t 6 then 6 else if t 5 then 5
      else if t 4 then 4 else if t 3 then 3 else if t 2 then 2
      else if t 1 then 1 else f) := by
  interval_cases k <;> simp only [hk, if_true] <;> first | (split_ifs <;> norm_num) | norm_num

/-- Raising tier predicates pointwise does not lower the chain, when some tier holds
already or the fallback is not above any tier that holds afterwards. -/
theorem chain_mono (t u : Nat → Bool) (f : Int)
    (htu : ∀ k : Nat, 1 ≤ k → k ≤ 10 → t k = true → u k = true)
    (hf : (∃ k : Nat, 1 ≤ k ∧ k ≤ 10 ∧ t k = true) ∨
      (∀ k : Nat, 1 ≤ k → k ≤ 10 → u k = true → f ≤ (k : Int))) :
    (if t 10 then 10 else if t 9 then 9 else if t 8 then 8
      else if t 7 then 7 else if t 6 then 6 else if t 5 then 5
      else if t 4 then 4 else if t 3 then 3 else if t 2 then 2
      else if t 1 then 1 else f) ≤
    (if u 10 then 10 else if u 9 then 9 else if u 8 then 8
      else if u 7 then 7 else if u 6 then 6 else if u 5 then 5
      else if u 4 then 4 else if u 3 then 3 else if u 2 then 2
      else if u 1 then 1 else f) := by
  rcases chain_cases t f with ⟨k, hk1, hk10, hk, he⟩ | ⟨hnone, he⟩
  · rw [he]
    exact chain_ge_tier u f k hk1 hk10 (htu k hk1 hk10 hk)
  · rw [he]
    rcases chain_cases u f with ⟨k, hk1, hk10, hk, hu⟩ | ⟨_, hu⟩
    · rw [hu]
      rcases hf with ⟨j, hj1, hj10, hj⟩ | hf
      · rw [hnone j hj1 hj10] at hj
        exact absurd hj (by decide)
      · exact hf k hk1 hk10 hk
    · rw [hu]

/-! ## Asserting one more signal -/

/-- Asserting a signal leaves the supplied level as it is. -/
theorem addedTo_INSTRSET (g : Signal) (c₁ c₂ : Macros) (h : g.addedTo c₁ c₂) :
    c₂.INSTRSET = c₁.INSTRSET := by
  obtain ⟨_, _, rfl⟩ := h
  cases g <;> rfl

/-- Asserting a signal leaves `_M_IX86_FP` as it is. -/
theorem addedTo_M_IX86_FP (g : Signal) (c₁ c₂ : Macros) (h : g.addedTo c₁ c₂) :
    c₂._M_IX86_FP = c₁._M_IX86_FP := by
  obtain ⟨_, _, rfl⟩ := h
  cases g <;> rfl

/-- Asserting a signal keeps every tier predicate that held. -/
theorem addedTo_tier (g : Signal) (c₁ c₂ : Macros) (h : g.addedTo c₁ c₂) (k : Nat)
    (hk1 : 1 ≤ k) (hk10 : k ≤ 10) (ht : tier c₁ k = true) : tier c₂ k = true := by
  obtain ⟨_, h2, rfl⟩ := h
  revert ht
  cases g <;> interval_cases k <;>
    simp only [tier, canonical64, Signal.without, Signal.asserted, defined] at h2 ⊢ <;>
    simp_all
/-! ## The workaround flags and single diagnostics after the header -/

/-- `FIX_CLANG_VECTOR_ALIAS_AMBIGUITY` after the header, read off the macro table the
caller supplies. -/
theorem FIX_CLANG_after (c : Macros) :
    (instrset_h c).macros.FIX_CLANG_VECTOR_ALIAS_AMBIGUITY =
      if (c.__clang__ || c.__apple_build_version__) && !defined c.__INTEL_COMPILER
      then true else c.FIX_CLANG_VECTOR_ALIAS_AMBIGUITY := by
  unfold instrset_h
  simp only [define_ZEXT_MISSING_macros, define_FIX_CLANG_macros, check_intel_macros,
    ms_compiler_macros, define_CLANG_VERSION_macros, define_GCC_VERSION_macros,
    define_FMA_macros, select_INSTRSET_macros, define_x86_64_macros,
    define_ALLOW_FP_PERMUTE_macros, check_cpp17_macros,
    apply_ite Macros.FIX_CLANG_VECTOR_ALIAS_AMBIGUITY, apply_ite Macros.__clang__,
    apply_ite Macros.__apple_build_version__, apply_ite Macros.__INTEL_COMPILER, ite_self]

/-- `ZEXT_MISSING` after the header, read off the macro table the caller supplies. -/
theorem ZEXT_MISSING_after (c : Macros) :
    (instrset_h c).macros.ZEXT_MISSING =
      if defined c.__GNUC__ && value c.__GNUC__ < 10 && !c.__clang__
      then true else c.ZEXT_MISSING := by
  unfold instrset_h
  simp only [define_ZEXT_MISSING_macros, define_FIX_CLANG_macros, check_intel_macros,
    ms_compiler_macros, define_CLANG_VERSION_macros, define_GCC_VERSION_macros,
    define_FMA_macros, select_INSTRSET_macros, define_x86_64_macros,
    define_ALLOW_FP_PERMUTE_macros, check_cpp17_macros,
    apply_ite Macros.ZEXT_MISSING, apply_ite Macros.__clang__,
    apply_ite Macros.__GNUC__, ite_self]

/-- Membership in a list that holds one diagnostic under a condition. -/
theorem mem_ite_singleton (d e : Diagnostic) (b : Bool) :
    d ∈ (if b then [e] else []) ↔ (b = true ∧ d = e) := by
  cases b <;> simp

/-- The header ends in a fatal error exactly under the conditions of lines 27-35 and
151-153. -/
theorem fatal_after (c : Macros) :
    (instrset_h c).fatal = true ↔
      (languageStandard c < 201703 ∨
        (defined c.__INTEL_COMPILER = true ∧ value c.__INTEL_COMPILER < 2021)) := by
  unfold State.fatal
  rw [diagnostics_after]
  by_cases h1 : languageStandard c < 201703 <;>
    simp [h1, List.any_append, apply_ite (List.any · Diagnostic.isError), Diagnostic.isError]

/-- The message of line 98 is printed exactly under the conditions of lines 93-97. -/
theorem message_fma_after (c : Macros) :
    Diagnostic.message_fma ∈ (instrset_h c).diagnostics ↔
      (8 ≤ resolvedLevel c ∧ defined c.__FMA__ = false ∧ gccFamily c = true ∧
        c.DISABLE_WARNING_AVX2_WITHOUT_FMA = false) := by
  rw [diagnostics_after]
  by_cases h1 : languageStandard c < 201703 <;>
    simp [h1, mem_ite_singleton, and_assoc]

/-- The warning of line 143 is printed exactly under the conditions of lines 131-142. -/
theorem warning_ms_avx512f_after (c : Macros) :
    Diagnostic.warning_ms_avx512f ∈ (instrset_h c).diagnostics ↔
      (defined c._MSC_VER = true ∧ defined c.__INTEL_COMPILER = false ∧ c.__clang__ = false ∧
        resolvedLevel c = 9) := by
  rw [diagnostics_after]
  by_cases h1 : languageStandard c < 201703 <;>
    simp [h1, mem_ite_singleton, and_assoc]

/-- The warning of line 146 is printed exactly under the conditions of lines 131-145. -/
theorem warning_poor_avx512_after (c : Macros) :
    Diagnostic.warning_poor_avx512 ∈ (instrset_h c).diagnostics ↔
      (defined c._MSC_VER = true ∧ defined c.__INTEL_COMPILER = false ∧ c.__clang__ = false ∧
        value c._MSC_VER < 1920 ∧ 8 < resolvedLevel c) := by
  rw [diagnostics_after]
  by_cases h1 : languageStandard c < 201703 <;>
    simp [h1, mem_ite_singleton, and_assoc]

/-! ## The version number in fixed width -/

/-- A value that fits the signed type is left as it is. -/
theorem wrapSigned_of_fits (bits : Nat) (x : Int) (hbits : 1 ≤ bits) (h0 : 0 ≤ x)
    (hx : x < ((2 ^ (bits - 1) : Nat) : Int)) : wrapSigned bits x = x := by
  unfold wrapSigned
  have h2 : (2 : Nat) ^ bits = 2 * 2 ^ (bits - 1) := by
    obtain ⟨n, rfl⟩ : ∃ n, bits = n + 1 := ⟨bits - 1, by omega⟩
    simp [pow_succ, Nat.mul_comm]
  rw [h2]
  generalize (2 : Nat) ^ (bits - 1) = h at hx ⊢
  rw [Int.emod_eq_of_lt (by omega) (by push_cast; omega)]
  omega

/-- When `major * 10000 + minor * 100 + patchlevel` fits the signed type, no operation of
the expression overflows and the version number is that number. -/
theorem versionNumberAt_of_fits (bits : Nat) (M m p : Nat) (hbits : 1 ≤ bits)
    (hfit : M * 10000 + m * 100 + p < 2 ^ (bits - 1)) :
    versionNumberAt bits M m p = ((M * 10000 + m * 100 + p : Nat) : Int) := by
  have hfitZ := Int.ofNat_lt.mpr hfit
  have e1 : wrapSigned bits ((M : Int) * 10000) = (M : Int) * 10000 := by
    apply wrapSigned_of_fits bits _ hbits (by omega)
    push_cast at hfitZ ⊢
    omega
  have e2 : wrapSigned bits ((m : Int) * 100) = (m : Int) * 100 := by
    apply wrapSigned_of_fits bits _ hbits (by omega)
    push_cast at hfitZ ⊢
    omega
  have e3 : wrapSigned bits ((M : Int) * 10000 + (m : Int) * 100)
      = (M : Int) * 10000 + (m : Int) * 100 := by
    apply wrapSigned_of_fits bits _ hbits (by omega)
    push_cast at hfitZ ⊢
    omega
  have e4 : wrapSigned bits ((M : Int) * 10000 + (m : Int) * 100 + (p : Int))
      = (M : Int) * 10000 + (m : Int) * 100 + (p : Int) := by
    apply wrapSigned_of_fits bits _ hbits (by omega)
    push_cast at hfitZ ⊢
    omega
  unfold versionNumberAt
  rw [e1, e2, e3, e4]
  push_cast
  rfl

/-- With no level supplied, `INSTRSET` after the header is the chain of lines 65-89 on
the table that carries `__x86_64__` as lines 44-46 leave it. -/
theorem INSTRSET_after_detect (c : Macros) (h : c.INSTRSET = none) :
    (instrset_h c).macros.INSTRSET =
      some (detect_INSTRSET { c with __x86_64__ := (instrset_h c).macros.__x86_64__ }) := by
  rw [x86_64_after]
  unfold instrset_h
  simp only [define_ZEXT_MISSING_macros, define_FIX_CLANG_macros, check_intel_macros,
    ms_compiler_macros, define_CLANG_VERSION_macros, define_GCC_VERSION_macros,
    define_FMA_macros, select_INSTRSET_macros, define_x86_64_macros,
    define_ALLOW_FP_PERMUTE_macros, check_cpp17_macros, apply_ite Macros.INSTRSET, ite_self, h]
  rfl

/-! ## The claims -/

/-- C1 (override): when the caller has defined `INSTRSET` as `v`, `INSTRSET` is `v` after
the header, whatever capability, 64-bit or `_M_IX86_FP` macros are defined. -/
theorem override_level (c : Macros) (v : Int) (h : c.INSTRSET = some v) :
    (instrset_h c).macros.INSTRSET = some v ∧ resolvedLevel c = v := by
  have h1 : (instrset_h c).macros.INSTRSET = some v := by rw [INSTRSET_after, h]
  exact ⟨h1, resolvedLevel_eq c v h1⟩

/-- C1 at a build with every AVX-512 macro defined and `INSTRSET` supplied as 2. -/
theorem override_level_witness :
    avx512_pinned_sse2.INSTRSET = some 2 ∧
      (instrset_h avx512_pinned_sse2).macros.INSTRSET = some 2 ∧
      resolvedLevel avx512_pinned_sse2 = 2 :=
  ⟨rfl, override_level avx512_pinned_sse2 2 rfl⟩

/-- C2, as the claim states it, fails: the 32-bit Microsoft build with `/arch:SSE2` has no
level supplied and resolves to level 2 from `_M_IX86_FP`, while the tier predicate P2
(`__SSE2__` or the 64-bit signal) does not hold. -/
theorem highest_tier_wins_counterexample :
    msvc32_sse2.INSTRSET = none ∧ resolvedLevel msvc32_sse2 = 2 ∧ tier msvc32_sse2 2 = false := by
  decide

/-- C2 (highest level wins), amended: with no level supplied, the resolved level is the
greatest `k` in 1..10 whose tier predicate holds; if none holds it is the value of
`_M_IX86_FP` when that is defined and 0 when it is not.  The level is never lower than a
satisfied tier, and it is a tier `k` in 1..10 whose predicate fails only when no tier
predicate holds at all and `k` is the value of `_M_IX86_FP`. -/
theorem highest_tier_wins (c : Macros) (h : c.INSTRSET = none) :
    (∀ k : Nat, 1 ≤ k → k ≤ 10 → tier c k = true →
        (∀ j : Nat, k < j → j ≤ 10 → tier c j = false) → resolvedLevel c = (k : Int)) ∧
    ((∀ k : Nat, 1 ≤ k → k ≤ 10 → tier c k = false) →
        (∀ f : Int, c._M_IX86_FP = some f → resolvedLevel c = f) ∧
        (c._M_IX86_FP = none → resolvedLevel c = 0)) ∧
    (∀ k : Nat, 1 ≤ k → k ≤ 10 → tier c k = true → (k : Int) ≤ resolvedLevel c) ∧
    (∀ k : Nat, 1 ≤ k → k ≤ 10 → resolvedLevel c = (k : Int) →
        tier c k = true ∨
          ((∀ j : Nat, 1 ≤ j → j ≤ 10 → tier c j = false) ∧
            c._M_IX86_FP = some (k : Int))) := by
  rw [resolvedLevel_detect c h]
  refine ⟨?_, ?_, ?_, ?_⟩
  · intro k hk1 hk10 hk hj
    exact chain_eq_greatest (tier c) _ k hk1 hk10 hk hj
  · intro hk
    rcases chain_cases (tier c) (value c._M_IX86_FP) with ⟨k, hk1, hk10, ht, _⟩ | ⟨_, he⟩
    · rw [hk k hk1 hk10] at ht
      exact absurd ht (by decide)
    · rw [he]
      constructor
      · intro f hf; simp [hf, value]
      · intro hn; simp [hn, value]
  · intro k hk1 hk10 hk
    exact chain_ge_tier (tier c) _ k hk1 hk10 hk
  · intro k hk1 _ hL
    rcases chain_cases (tier c) (value c._M_IX86_FP) with ⟨m, _, _, ht, he⟩ | ⟨hn, he⟩
    · rw [he] at hL
      obtain rfl : m = k := by exact_mod_cast hL
      exact Or.inl ht
    · refine Or.inr ⟨hn, ?_⟩
      rw [he] at hL
      cases hF : c._M_IX86_FP with
      | none => rw [hF] at hL; simp [value] at hL; omega
      | some f => rw [hF] at hL; simp [value] at hL; rw [hL]

/-- C2 at a GCC build with `-mavx2`: AVX2 is the greatest tier that holds. -/
theorem highest_tier_wins_witness : resolvedLevel gcc_avx2 = ((8 : Nat) : Int) :=
  (highest_tier_wins gcc_avx2 rfl).1 8 (by decide) (by decide) (by decide)
    (by intro j h1 h2; interval_cases j <;> rfl)

/-- C3, as the claim states it, fails: the 32-bit Microsoft build with `/arch:SSE2`
resolves to level 2 from `_M_IX86_FP`; the same build with `__SSE__` asserted in addition,
and nothing else changed, resolves to level 1. -/
theorem monotone_in_signals_counterexample :
    msvc32_sse2.INSTRSET = none ∧ msvc32_sse2_SSE.INSTRSET = none ∧
      Signal.SSE.addedTo msvc32_sse2 msvc32_sse2_SSE ∧
      resolvedLevel msvc32_sse2 = 2 ∧ resolvedLevel msvc32_sse2_SSE = 1 ∧
      ¬ resolvedLevel msvc32_sse2 ≤ resolvedLevel msvc32_sse2_SSE :=
  ⟨rfl, rfl, ⟨rfl, rfl, rfl⟩, by decide, by decide, by decide⟩

/-- C3 (monotonicity), amended: let two configurations with no level supplied be identical
except that one capability or 64-bit signal is absent in the first and asserted in the
second.  If some tier predicate holds in the first already, or the value of `_M_IX86_FP`
(0 when it is absent) is not above any tier whose predicate holds in the second, the
resolved level of the second is at least that of the first. -/
theorem monotone_in_signals (g : Signal) (c₁ c₂ : Macros) (h₁ : c₁.INSTRSET = none)
    (hadd : g.addedTo c₁ c₂)
    (hfloor : (∃ k : Nat, 1 ≤ k ∧ k ≤ 10 ∧ tier c₁ k = true) ∨
      (∀ k : Nat, 1 ≤ k → k ≤ 10 → tier c₂ k = true → value c₁._M_IX86_FP ≤ (k : Int))) :
    resolvedLevel c₁ ≤ resolvedLevel c₂ := by
  have h₂ : c₂.INSTRSET = none := by rw [addedTo_INSTRSET g c₁ c₂ hadd, h₁]
  rw [resolvedLevel_detect c₁ h₁, resolvedLevel_detect c₂ h₂, addedTo_M_IX86_FP g c₁ c₂ hadd]
  exact chain_mono (tier c₁) (tier c₂) _ (addedTo_tier g c₁ c₂ hadd) hfloor

/-- C3 at a GCC build with `-mavx2` and the same build without `__AVX2__`. -/
theorem monotone_in_signals_witness :
    resolvedLevel (Signal.AVX2.without gcc_avx2) ≤ resolvedLevel gcc_avx2 :=
  monotone_in_signals Signal.AVX2 (Signal.AVX2.without gcc_avx2) gcc_avx2 rfl ⟨rfl, rfl, rfl⟩
    (Or.inl ⟨7, by decide, by decide, rfl⟩)

/-- C4: with no level supplied and `__AVX512VL__`, `__AVX512BW__` and `__AVX512DQ__` all
defined, `INSTRSET` is 10 after the header, whatever else is defined. -/
theorem avx512_all_level_10 (c : Macros) (h : c.INSTRSET = none)
    (hVL : c.__AVX512VL__ = true) (hBW : c.__AVX512BW__ = true) (hDQ : c.__AVX512DQ__ = true) :
    (instrset_h c).macros.INSTRSET = some 10 ∧ resolvedLevel c = 10 := by
  have h1 : (instrset_h c).macros.INSTRSET = some 10 := by
    rw [INSTRSET_after, h]
    simp [tier, hVL, hBW, hDQ]
  exact ⟨h1, resolvedLevel_eq c 10 h1⟩

/-- C4 at a build with only the three AVX-512 macros and `_M_IX86_FP`. -/
theorem avx512_all_level_10_witness :
    (instrset_h avx512_only_vl_bw_dq).macros.INSTRSET = some 10 ∧
      resolvedLevel avx512_only_vl_bw_dq = 10 :=
  avx512_all_level_10 avx512_only_vl_bw_dq rfl rfl rfl rfl

/-- C5: with no level supplied and one of `_M_AMD64`, `_M_X64`, `__amd64`, `__x86_64__`
defined, the resolved level is at least 2, also without `__SSE2__`; when no capability
macro is defined besides, `INSTRSET` is exactly 2 after the header. -/
theorem x86_64_level_ge_2 (c : Macros) (h : c.INSTRSET = none) (h64 : canonical64 c = true) :
    2 ≤ resolvedLevel c ∧
      (anyCapability c = false →
        (instrset_h c).macros.INSTRSET = some 2 ∧ resolvedLevel c = 2) := by
  have ht : tier c 2 = true := by simp [tier, h64]
  constructor
  · rw [resolvedLevel_detect c h]
    exact chain_ge_tier (tier c) _ 2 (by norm_num) (by norm_num) ht
  · intro hcap
    simp only [anyCapability, Bool.or_eq_false_iff] at hcap
    have h1 : (instrset_h c).macros.INSTRSET = some 2 := by
      rw [INSTRSET_after, h]
      simp [tier, hcap, h64]
    exact ⟨h1, resolvedLevel_eq c 2 h1⟩

/-- C5 at a 64-bit Microsoft build without `/arch`. -/
theorem x86_64_level_ge_2_witness :
    2 ≤ resolvedLevel msvc64_plain ∧ (instrset_h msvc64_plain).macros.INSTRSET = some 2 ∧
      resolvedLevel msvc64_plain = 2 :=
  ⟨(x86_64_level_ge_2 msvc64_plain rfl rfl).1, (x86_64_level_ge_2 msvc64_plain rfl rfl).2 rfl⟩

/-- C6: with no level supplied, no capability macro, no `_M_IX86_FP` and none of the four
64-bit macros defined, `INSTRSET` is 0 after the header. -/
theorem no_signal_level_0 (c : Macros) (h : c.INSTRSET = none)
    (hcap : anyCapability c = false) (hfp : c._M_IX86_FP = none)
    (h64 : canonical64 c = false) :
    (instrset_h c).macros.INSTRSET = some 0 ∧ resolvedLevel c = 0 := by
  simp only [anyCapability, Bool.or_eq_false_iff] at hcap
  have h1 : (instrset_h c).macros.INSTRSET = some 0 := by
    rw [INSTRSET_after, h]
    simp [tier, hcap, h64, hfp, value]
  exact ⟨h1, resolvedLevel_eq c 0 h1⟩

/-- C6 at a C++17 build with none of the recognised macros. -/
theorem no_signal_level_0_witness :
    (instrset_h plain_cpp17).macros.INSTRSET = some 0 ∧ resolvedLevel plain_cpp17 = 0 :=
  no_signal_level_0 plain_cpp17 rfl rfl rfl rfl

/-- C7, as the claim states it, fails: Clang in MSVC-compatible mode with AVX2 resolves to
level 8 and is not of the GCC family (`__GNUC__` is not defined), yet `__FMA__` is not
defined after the header, because line 100 leaves Clang out. -/
theorem fma_inferred_counterexample :
    8 ≤ resolvedLevel clang_cl_avx2 ∧ defined clang_cl_avx2.__GNUC__ = false ∧
      defined (instrset_h clang_cl_avx2).macros.__FMA__ = false := by
  decide

/-- C7 (FMA inference), amended: when the resolved level (detected or supplied) is at
least 8, the compiler is not of the GCC family (`__GNUC__` absent or `__INTEL_COMPILER`
present), and `__clang__` is absent unless `__FMA__` was supplied, then `__FMA__` is
defined after the header, whether or not it was supplied. -/
theorem fma_inferred (c : Macros) (hl : 8 ≤ resolvedLevel c)
    (hfam : defined c.__GNUC__ = false ∨ defined c.__INTEL_COMPILER = true)
    (hclang : c.__clang__ = false ∨ defined c.__FMA__ = true) :
    defined (instrset_h c).macros.__FMA__ = true := by
  rw [FMA_after]
  by_cases hF : defined c.__FMA__ = true
  · simp [hF]
  · have hF' : defined c.__FMA__ = false := by simpa using hF
    have hc : c.__clang__ = false := by
      rcases hclang with h | h
      · exact h
      · exact absurd h hF
    have hg : (defined c.__GNUC__ && !defined c.__INTEL_COMPILER) = false := by
      rcases hfam with h | h <;> simp [h]
    have hl' : decide (resolvedLevel c ≥ 8) = true := decide_eq_true hl
    rw [if_pos (by rw [hF', hc, hg, hl']; rfl)]
    rfl

/-- C7 at a 64-bit Microsoft build with `/arch:AVX2`. -/
theorem fma_inferred_witness : defined (instrset_h msvc64_avx2).macros.__FMA__ = true :=
  fma_inferred msvc64_avx2 (by decide) (Or.inl rfl) (Or.inl rfl)

/-- C8: when the language-standard value (`_MSVC_LANG` when defined, otherwise
`__cplusplus`) is below 201703, the header ends in a fatal error, whatever the other
macros are. -/
theorem below_cpp17_is_fatal (c : Macros) (h : languageStandard c < 201703) :
    (instrset_h c).fatal = true ∧ Diagnostic.error_cpp17 ∈ (instrset_h c).diagnostics := by
  have hmem : Diagnostic.error_cpp17 ∈ (instrset_h c).diagnostics := by
    rw [diagnostics_after, if_pos h]
    simp
  refine ⟨?_, hmem⟩
  unfold State.fatal
  rw [List.any_eq_true]
  exact ⟨Diagnostic.error_cpp17, hmem, rfl⟩

/-- C8 at a GCC build with `-std=c++14`. -/
theorem below_cpp17_is_fatal_witness :
    (instrset_h gcc_avx2_cpp14).fatal = true ∧
      Diagnostic.error_cpp17 ∈ (instrset_h gcc_avx2_cpp14).diagnostics :=
  below_cpp17_is_fatal gcc_avx2_cpp14 (by decide)

/-- C9, as the claim states it, fails: the version number is computed in fixed width.  A
GCC build whose `__GNUC__` is 10^15 gets a negative `GCC_VERSION` inside `#if` (64 bits),
below the 10000 of version 1.0.0; as a 32-bit `int` expression the number of major
214749 is negative too. -/
theorem version_number_order_counterexample :
    (instrset_h gcc_major_one).macros.GCC_VERSION = some 10000 ∧
      (instrset_h gcc_major_huge).macros.GCC_VERSION = some (-8446744073709551616) ∧
      versionNumber 1000000000000000 0 0 < versionNumber 1 0 0 ∧
      versionNumberAt 32 214749 0 0 = -2147477296 ∧
      versionNumberAt 32 214749 0 0 < versionNumberAt 32 1 0 0 := by
  decide

/-- C9, amended: for version triples of natural numbers with minor and patch level below
100 whose number `major * 10000 + minor * 100 + patchlevel` fits the signed integer type
it is evaluated in (64 bits inside `#if`, 32 bits as an `int` expression), the version
number is that number, it is smaller exactly when the triple is lexicographically
smaller, and equal exactly when the triples are equal; it is the value given to
`GCC_VERSION` for GCC (when the caller has not defined it) and to `CLANG_VERSION` for
Clang. -/
theorem version_number_order (bits : Nat) (hbits : 1 ≤ bits) (M₁ m₁ p₁ M₂ m₂ p₂ : Nat)
    (hm₁ : m₁ < 100) (hp₁ : p₁ < 100) (hm₂ : m₂ < 100) (hp₂ : p₂ < 100)
    (hfit₁ : M₁ * 10000 + m₁ * 100 + p₁ < 2 ^ (bits - 1))
    (hfit₂ : M₂ * 10000 + m₂ * 100 + p₂ < 2 ^ (bits - 1)) :
    versionNumberAt bits M₁ m₁ p₁ = ((M₁ * 10000 + m₁ * 100 + p₁ : Nat) : Int) ∧
    (versionNumberAt bits M₁ m₁ p₁ < versionNumberAt bits M₂ m₂ p₂ ↔
      (M₁ < M₂ ∨ (M₁ = M₂ ∧ (m₁ < m₂ ∨ (m₁ = m₂ ∧ p₁ < p₂))))) ∧
    (versionNumberAt bits M₁ m₁ p₁ = versionNumberAt bits M₂ m₂ p₂ ↔
      (M₁ = M₂ ∧ m₁ = m₂ ∧ p₁ = p₂)) ∧
    (∀ c : Macros, c.__GNUC__ = some (M₁ : Int) → c.__GNUC_MINOR__ = some (m₁ : Int) →
      c.__GNUC_PATCHLEVEL__ = some (p₁ : Int) → c.__clang__ = false → c.GCC_VERSION = none →
      (instrset_h c).macros.GCC_VERSION = some (versionNumber M₁ m₁ p₁)) ∧
    (∀ c : Macros, c.__clang__ = true → c.__clang_major__ = some (M₁ : Int) →
      c.__clang_minor__ = some (m₁ : Int) → c.__clang_patchlevel__ = some (p₁ : Int) →
      (instrset_h c).macros.CLANG_VERSION = some (versionNumber M₁ m₁ p₁)) := by
  have e₁ := versionNumberAt_of_fits bits M₁ m₁ p₁ hbits hfit₁
  have e₂ := versionNumberAt_of_fits bits M₂ m₂ p₂ hbits hfit₂
  refine ⟨e₁, ?_, ?_, ?_, ?_⟩
  · rw [e₁, e₂]; omega
  · rw [e₁, e₂]; omega
  · intro c hM hm hp hc hG
    rw [GCC_VERSION_after, hM, hm, hp, hc, hG]
    simp [defined, value]
  · intro c hc hM hm hp
    rw [CLANG_VERSION_after, hM, hm, hp, hc]
    simp [value]

/-- C9 at 32 bits for the versions 9.5.0 and 214747.99.99, the greatest major all of
whose versions fit an `int`, and at 64 bits for the GCC 13.2.0 build. -/
theorem version_number_order_witness :
    versionNumberAt 32 214747 99 99 = 2147479999 ∧
      versionNumberAt 32 9 5 0 < versionNumberAt 32 214747 99 99 ∧
      (instrset_h gcc_avx2).macros.GCC_VERSION = some (versionNumber 13 2 0) ∧
      versionNumber 13 2 0 = 130200 :=
  ⟨(version_number_order 32 (by decide) 214747 99 99 9 5 0 (by decide) (by decide) (by decide)
      (by decide) (by decide) (by decide)).1,
   (version_number_order 32 (by decide) 9 5 0 214747 99 99 (by decide) (by decide) (by decide)
      (by decide) (by decide) (by decide)).2.1.mpr (Or.inl (by decide)),
   (version_number_order 64 (by decide) 13 2 0 13 2 0 (by decide) (by decide) (by decide)
      (by decide) (by decide) (by decide)).2.2.2.1 gcc_avx2 rfl rfl rfl rfl rfl,
   (version_number_order 64 (by decide) 13 2 0 13 2 0 (by decide) (by decide) (by decide)
      (by decide) (by decide) (by decide)).1⟩

/-- C10, at the failing input: the caller has defined `CLANG_VERSION` as 1500 and the
compiler is Clang 15.0.7; line 124 defines `CLANG_VERSION` again, without the
`!defined` test that line 118 has for `GCC_VERSION`, and the value after the header is
150007. -/
theorem clang_version_not_preserved :
    clang_pinned_version.CLANG_VERSION = some 1500 ∧
      (instrset_h clang_pinned_version).macros.CLANG_VERSION = some 150007 := by
  decide

/-- C11, as the claim states it, fails: with GCC 9.4 the header defines `ZEXT_MISSING`
(line 168 holds) and does not define `FIX_CLANG_VECTOR_ALIAS_AMBIGUITY` (line 164 asks
for `__clang__` or `__apple_build_version__`). -/
theorem zext_missing_family_counterexample :
    (instrset_h gcc9).macros.ZEXT_MISSING = true ∧
      (instrset_h gcc9).macros.FIX_CLANG_VECTOR_ALIAS_AMBIGUITY = false := by
  decide

/-- C11, amended: `ZEXT_MISSING` is defined by the header only for GCC with a major
version below 10 and without the Clang signal, not for the compiler family of the
vector-type-alias flag: in every configuration in which `ZEXT_MISSING` is defined after
the header and was not defined before it, `__GNUC__` is defined with a value below 10 and
`__clang__` is absent, and `FIX_CLANG_VECTOR_ALIAS_AMBIGUITY` is defined after the header
only if it was defined before or `__apple_build_version__` is defined and
`__INTEL_COMPILER` is absent. -/
theorem zext_missing_family (c : Macros) (hpre : c.ZEXT_MISSING = false)
    (hz : (instrset_h c).macros.ZEXT_MISSING = true) :
    (defined c.__GNUC__ = true ∧ value c.__GNUC__ < 10 ∧ c.__clang__ = false) ∧
    ((instrset_h c).macros.FIX_CLANG_VECTOR_ALIAS_AMBIGUITY = true ↔
      (c.FIX_CLANG_VECTOR_ALIAS_AMBIGUITY = true ∨
        (c.__apple_build_version__ = true ∧ defined c.__INTEL_COMPILER = false))) := by
  rw [ZEXT_MISSING_after, hpre] at hz
  have hcond : (defined c.__GNUC__ && decide (value c.__GNUC__ < 10) && !c.__clang__) = true := by
    by_contra hn
    rw [if_neg hn] at hz
    exact absurd hz (by decide)
  simp only [Bool.and_eq_true, decide_eq_true_eq, Bool.not_eq_true'] at hcond
  obtain ⟨⟨hg, hv⟩, hc⟩ := hcond
  refine ⟨⟨hg, hv, hc⟩, ?_⟩
  rw [FIX_CLANG_after, hc]
  cases c.__apple_build_version__ <;> cases defined c.__INTEL_COMPILER <;>
    cases c.FIX_CLANG_VECTOR_ALIAS_AMBIGUITY <;> simp

/-- C11 at the GCC 9.4 build: the header defines `ZEXT_MISSING` there. -/
theorem zext_missing_family_witness :
    (defined gcc9.__GNUC__ = true ∧ value gcc9.__GNUC__ < 10 ∧ gcc9.__clang__ = false) ∧
    ((instrset_h gcc9).macros.FIX_CLANG_VECTOR_ALIAS_AMBIGUITY = true ↔
      (gcc9.FIX_CLANG_VECTOR_ALIAS_AMBIGUITY = true ∨
        (gcc9.__apple_build_version__ = true ∧ defined gcc9.__INTEL_COMPILER = false))) :=
  zext_missing_family gcc9 rfl (by decide)

/-- C12: the header ends in a fatal error exactly when the language-standard value
(`_MSVC_LANG` when defined, otherwise `__cplusplus`) is below 201703 or
`__INTEL_COMPILER` is defined with a value below 2021; so two configurations that agree on
`_MSVC_LANG`, `__cplusplus` and `__INTEL_COMPILER` fail or pass together, whatever their
capability signals, supplied level and MS, GCC or Clang versions, and the two AVX-512
warnings are not errors. -/
theorem fatal_exactly_two (c : Macros) :
    ((instrset_h c).fatal = true ↔
      (languageStandard c < 201703 ∨
        (defined c.__INTEL_COMPILER = true ∧ value c.__INTEL_COMPILER < 2021))) ∧
    (∀ c' : Macros, c'._MSVC_LANG = c._MSVC_LANG → c'.__cplusplus = c.__cplusplus →
      c'.__INTEL_COMPILER = c.__INTEL_COMPILER →
      (instrset_h c').fatal = (instrset_h c).fatal) ∧
    (Diagnostic.warning_ms_avx512f.isError = false ∧
      Diagnostic.warning_poor_avx512.isError = false ∧ Diagnostic.message_fma.isError = false) := by
  refine ⟨fatal_after c, ?_, rfl, rfl, rfl⟩
  intro c' h1 h2 h3
  have hl : languageStandard c' = languageStandard c := by
    unfold languageStandard
    rw [h1, h2]
  rw [Bool.eq_iff_iff, fatal_after c', fatal_after c, hl, h3]

/-- C12 at the Microsoft 19.16 build with `/arch:AVX512`: the warning for poor AVX-512
support is printed and the header does not fail. -/
theorem fatal_exactly_two_witness :
    Diagnostic.warning_poor_avx512 ∈ (instrset_h msvc64_avx512).diagnostics ∧
      ¬ (instrset_h msvc64_avx512).fatal = true :=
  ⟨by decide, fun h => absurd ((fatal_exactly_two msvc64_avx512).1.mp h) (by decide)⟩

/-- C13: when the resolved level is below 8, or the compiler is of the GCC family
(`__GNUC__` defined and `__INTEL_COMPILER` absent), `__FMA__` after the header is what it
was before, so it is defined exactly when it was supplied.  The message of line 98 is
printed exactly when the resolved level is at least 8, `__FMA__` was not supplied, the
compiler is of the GCC family and `DISABLE_WARNING_AVX2_WITHOUT_FMA` is not defined. -/
theorem fma_not_guessed (c : Macros) :
    ((resolvedLevel c < 8 ∨ (defined c.__GNUC__ = true ∧ defined c.__INTEL_COMPILER = false)) →
      (instrset_h c).macros.__FMA__ = c.__FMA__ ∧
      (defined (instrset_h c).macros.__FMA__ = true ↔ defined c.__FMA__ = true)) ∧
    (Diagnostic.message_fma ∈ (instrset_h c).diagnostics ↔
      (8 ≤ resolvedLevel c ∧ defined c.__FMA__ = false ∧
        (defined c.__GNUC__ = true ∧ defined c.__INTEL_COMPILER = false) ∧
        c.DISABLE_WARNING_AVX2_WITHOUT_FMA = false)) := by
  constructor
  · intro h
    have hkeep : (instrset_h c).macros.__FMA__ = c.__FMA__ := by
      rw [FMA_after]
      apply if_neg
      rcases h with h | ⟨hg, hi⟩
      · have : decide (resolvedLevel c ≥ 8) = false := decide_eq_false (by omega)
        rw [this]
        simp
      · rw [hg, hi]
        simp
    exact ⟨hkeep, by rw [hkeep]⟩
  · rw [message_fma_after]
    simp [gccFamily]

/-- C13 at the GCC build with `-mavx2` and no `-mfma`: `__FMA__` stays undefined and the
message is printed. -/
theorem fma_not_guessed_witness :
    (instrset_h gcc_avx2).macros.__FMA__ = gcc_avx2.__FMA__ ∧
      Diagnostic.message_fma ∈ (instrset_h gcc_avx2).diagnostics :=
  ⟨((fma_not_guessed gcc_avx2).1 (Or.inr ⟨rfl, rfl⟩)).1,
    (fma_not_guessed gcc_avx2).2.mpr ⟨by decide, rfl, ⟨rfl, rfl⟩, rfl⟩⟩

/-- C14: the warning of line 143 is printed exactly when `_MSC_VER` is defined,
`__INTEL_COMPILER` and `__clang__` are absent and the resolved level is 9; the warning of
line 146 exactly when, for the same compiler, the value of `_MSC_VER` is below 1920 and
the resolved level is above 8.  Neither is printed when the resolved level is 8 or lower,
nor when the compiler is not the Microsoft compiler. -/
theorem avx512_warnings (c : Macros) :
    (Diagnostic.warning_ms_avx512f ∈ (instrset_h c).diagnostics ↔
      (defined c._MSC_VER = true ∧ defined c.__INTEL_COMPILER = false ∧ c.__clang__ = false ∧
        resolvedLevel c = 9)) ∧
    (Diagnostic.warning_poor_avx512 ∈ (instrset_h c).diagnostics ↔
      (defined c._MSC_VER = true ∧ defined c.__INTEL_COMPILER = false ∧ c.__clang__ = false ∧
        value c._MSC_VER < 1920 ∧ 8 < resolvedLevel c)) ∧
    ((resolvedLevel c ≤ 8 ∨ defined c._MSC_VER = false ∨ defined c.__INTEL_COMPILER = true ∨
        c.__clang__ = true) →
      Diagnostic.warning_ms_avx512f ∉ (instrset_h c).diagnostics ∧
      Diagnostic.warning_poor_avx512 ∉ (instrset_h c).diagnostics) := by
  refine ⟨warning_ms_avx512f_after c, warning_poor_avx512_after c, ?_⟩
  intro h
  rw [warning_ms_avx512f_after, warning_poor_avx512_after]
  constructor
  · rintro ⟨h1, h2, h3, h4⟩
    rcases h with h | h | h | h
    · omega
    · rw [h1] at h; exact absurd h (by decide)
    · rw [h2] at h; exact absurd h (by decide)
    · rw [h3] at h; exact absurd h (by decide)
  · rintro ⟨h1, h2, h3, _, h5⟩
    rcases h with h | h | h | h
    · omega
    · rw [h1] at h; exact absurd h (by decide)
    · rw [h2] at h; exact absurd h (by decide)
    · rw [h3] at h; exact absurd h (by decide)

/-- C14 at the Microsoft 19.38 build with `/arch:AVX2`, level 8: no AVX-512 warning. -/
theorem avx512_warnings_witness :
    Diagnostic.warning_ms_avx512f ∉ (instrset_h msvc64_avx2).diagnostics ∧
      Diagnostic.warning_poor_avx512 ∉ (instrset_h msvc64_avx2).diagnostics :=
  (avx512_warnings msvc64_avx2).2.2 (Or.inl (by decide))

/-- C15: `__x86_64__` is defined after the header exactly when one of `_M_AMD64`,
`_M_X64`, `__amd64`, `__x86_64__` was defined before it.  Level resolution uses this
normalised signal and not the raw macros: the chain of lines 65-89 reads none of the other
three macros; with no level supplied the level is the chain on the table that carries
`__x86_64__` as normalised; and the signal decides the level: where no capability macro
above SSE is defined, the level is 2 when one of the four macros is defined, whichever it
is, and otherwise 1 with `__SSE__` and the value of `_M_IX86_FP` (0 when absent) without.
So two configurations with no level supplied that differ only in the four macros, and
agree on whether one of them is defined, resolve to the same level. -/
theorem x86_64_normalised :
    (∀ c : Macros, defined (instrset_h c).macros.__x86_64__ = true ↔
      (c._M_AMD64 = true ∨ c._M_X64 = true ∨ c.__amd64 = true ∨ defined c.__x86_64__ = true)) ∧
    (∀ (m : Macros) (a b d : Bool),
      detect_INSTRSET { m with _M_AMD64 := a, _M_X64 := b, __amd64 := d } = detect_INSTRSET m) ∧
    (∀ c : Macros, c.INSTRSET = none →
      (instrset_h c).macros.INSTRSET =
        some (detect_INSTRSET { c with __x86_64__ := (instrset_h c).macros.__x86_64__ })) ∧
    (∀ c : Macros, c.INSTRSET = none → (∀ k : Nat, 3 ≤ k → k ≤ 10 → tier c k = false) →
      c.__SSE2__ = false →
      ((c._M_AMD64 = true ∨ c._M_X64 = true ∨ c.__amd64 = true ∨ defined c.__x86_64__ = true) →
        (instrset_h c).macros.INSTRSET = some 2) ∧
      ((c._M_AMD64 = false ∧ c._M_X64 = false ∧ c.__amd64 = false ∧
          defined c.__x86_64__ = false) →
        (instrset_h c).macros.INSTRSET = some (if c.__SSE__ then 1 else value c._M_IX86_FP))) ∧
    (∀ c₁ c₂ : Macros, c₁.INSTRSET = none → c₂.INSTRSET = none →
      c₁.without64 = c₂.without64 → canonical64 c₁ = canonical64 c₂ →
      (instrset_h c₁).macros.INSTRSET = (instrset_h c₂).macros.INSTRSET ∧
      resolvedLevel c₁ = resolvedLevel c₂) := by
  refine ⟨?_, ?_, ?_, ?_, ?_⟩
  · intro c
    rw [x86_64_after, defined_x86_64_after]
    simp only [Bool.or_eq_true, or_assoc]
  · intro m a b d
    rfl
  · intro c h
    exact INSTRSET_after_detect c h
  · intro c h hk hS
    have h3 := hk 3; have h4 := hk 4; have h5 := hk 5; have h6 := hk 6; have h7 := hk 7
    have h8 := hk 8; have h9 := hk 9; have h10 := hk 10
    simp only [Nat.reduceLeDiff, le_refl, true_implies] at h3 h4 h5 h6 h7 h8 h9 h10
    have h2 : tier c 2 = canonical64 c := by
      show (c.__SSE2__ || canonical64 c) = canonical64 c
      rw [hS]; rfl
    have h1 : tier c 1 = c.__SSE__ := rfl
    rw [INSTRSET_after, h]
    simp only [h3, h4, h5, h6, h7, h8, h9, h10, h2, h1, Bool.false_eq_true, if_false]
    constructor
    · intro h64
      have : canonical64 c = true := by
        simp only [canonical64, Bool.or_eq_true, or_assoc]
        exact h64
      rw [this]
      rfl
    · rintro ⟨ha, hb, hd, hx⟩
      have : canonical64 c = false := by
        simp only [canonical64, ha, hb, hd, hx]
        rfl
      rw [this]
      rfl
  · intro c₁ c₂ h₁ h₂ hsame h64
    have ht : ∀ k : Nat, tier c₁ k = tier c₂ k := by
      intro k
      have e1 := congrArg Macros.__AVX512VL__ hsame
      have e2 := congrArg Macros.__AVX512BW__ hsame
      have e3 := congrArg Macros.__AVX512DQ__ hsame
      have e4 := congrArg Macros.__AVX512F__ hsame
      have e5 := congrArg Macros.__AVX512__ hsame
      have e6 := congrArg Macros.__AVX2__ hsame
      have e7 := congrArg Macros.__AVX__ hsame
      have e8 := congrArg Macros.__SSE4_2__ hsame
      have e9 := congrArg Macros.__SSE4_1__ hsame
      have e10 := congrArg Macros.__SSSE3__ hsame
      have e11 := congrArg Macros.__SSE3__ hsame
      have e12 := congrArg Macros.__SSE2__ hsame
      have e13 := congrArg Macros.__SSE__ hsame
      simp only [Macros.without64] at e1 e2 e3 e4 e5 e6 e7 e8 e9 e10 e11 e12 e13
      unfold tier
      split <;> simp only [e1, e2, e3, e4, e5, e6, e7, e8, e9, e10, e11, e12, e13, h64]
    have hf : c₁._M_IX86_FP = c₂._M_IX86_FP := by
      have e := congrArg Macros._M_IX86_FP hsame
      simpa only [Macros.without64] using e
    have hI : (instrset_h c₁).macros.INSTRSET = (instrset_h c₂).macros.INSTRSET := by
      rw [INSTRSET_after, INSTRSET_after, h₁, h₂]
      simp only [ht, hf]
    refine ⟨hI, ?_⟩
    unfold resolvedLevel
    rw [hI]

/-- C15 at builds without any capability macro: with only `__amd64`, or only `_M_X64`,
the level is 2 through the normalised `__x86_64__`; with none of the four macros it is 0. -/
theorem x86_64_normalised_witness :
    (instrset_h amd64_only).macros.INSTRSET = some 2 ∧
      (instrset_h x64_only).macros.INSTRSET = some 2 ∧
      (instrset_h plain_cpp17).macros.INSTRSET = some 0 ∧
      resolvedLevel amd64_only = resolvedLevel x64_only :=
  ⟨(x86_64_normalised.2.2.2.1 amd64_only rfl (by intro k h3 h10; interval_cases k <;> rfl)
      rfl).1 (Or.inr (Or.inr (Or.inl rfl))),
   (x86_64_normalised.2.2.2.1 x64_only rfl (by intro k h3 h10; interval_cases k <;> rfl)
      rfl).1 (Or.inr (Or.inl rfl)),
   (x86_64_normalised.2.2.2.1 plain_cpp17 rfl (by intro k h3 h10; interval_cases k <;> rfl)
      rfl).2 ⟨rfl, rfl, rfl, rfl⟩,
   (x86_64_normalised.2.2.2.2 amd64_only x64_only rfl rfl rfl rfl).2⟩

/-- C16, as the claim states it, fails: with GCC 12.3 and `ZEXT_MISSING` defined by the
caller, `ZEXT_MISSING` is defined after the header although `__GNUC__` is not below 10
(the header never removes a definition), and the same build without the caller's
definition agrees on every compiler-identity macro and ends without the flag. -/
theorem workaround_flags_counterexample :
    (instrset_h gcc12_zext_pinned).macros.ZEXT_MISSING = true ∧
      ¬ value gcc12_zext_pinned.__GNUC__ < 10 ∧
      gcc12.__GNUC__ = gcc12_zext_pinned.__GNUC__ ∧
      gcc12.__clang__ = gcc12_zext_pinned.__clang__ ∧
      gcc12.__apple_build_version__ = gcc12_zext_pinned.__apple_build_version__ ∧
      gcc12.__INTEL_COMPILER = gcc12_zext_pinned.__INTEL_COMPILER ∧
      (instrset_h gcc12).macros.ZEXT_MISSING = false := by
  decide

/-- C16, amended: `FIX_CLANG_VECTOR_ALIAS_AMBIGUITY` is defined after the header exactly
when it was defined before, or `__clang__` or `__apple_build_version__` is defined and
`__INTEL_COMPILER` is absent; `ZEXT_MISSING` exactly when it was defined before, or
`__GNUC__` is defined with a value below 10 and `__clang__` is absent.  So two
configurations that agree on these compiler-identity macros and on which of the two flags
are defined before the header end with the same two flags, whatever their capability
signals, resolved level and FMA signal. -/
theorem workaround_flags (c : Macros) :
    ((instrset_h c).macros.FIX_CLANG_VECTOR_ALIAS_AMBIGUITY = true ↔
      (c.FIX_CLANG_VECTOR_ALIAS_AMBIGUITY = true ∨
        ((c.__clang__ = true ∨ c.__apple_build_version__ = true) ∧
          defined c.__INTEL_COMPILER = false))) ∧
    ((instrset_h c).macros.ZEXT_MISSING = true ↔
      (c.ZEXT_MISSING = true ∨
        (defined c.__GNUC__ = true ∧ value c.__GNUC__ < 10 ∧ c.__clang__ = false))) ∧
    (∀ c' : Macros, c'.__clang__ = c.__clang__ →
      c'.__apple_build_version__ = c.__apple_build_version__ →
      defined c'.__INTEL_COMPILER = defined c.__INTEL_COMPILER → c'.__GNUC__ = c.__GNUC__ →
      c'.FIX_CLANG_VECTOR_ALIAS_AMBIGUITY = c.FIX_CLANG_VECTOR_ALIAS_AMBIGUITY →
      c'.ZEXT_MISSING = c.ZEXT_MISSING →
      (instrset_h c').macros.FIX_CLANG_VECTOR_ALIAS_AMBIGUITY =
          (instrset_h c).macros.FIX_CLANG_VECTOR_ALIAS_AMBIGUITY ∧
        (instrset_h c').macros.ZEXT_MISSING = (instrset_h c).macros.ZEXT_MISSING) := by
  refine ⟨?_, ?_, ?_⟩
  · rw [FIX_CLANG_after]
    cases c.__clang__ <;> cases c.__apple_build_version__ <;>
      cases defined c.__INTEL_COMPILER <;> cases c.FIX_CLANG_VECTOR_ALIAS_AMBIGUITY <;> simp
  · rw [ZEXT_MISSING_after]
    by_cases hv : value c.__GNUC__ < 10 <;>
      cases defined c.__GNUC__ <;> cases c.__clang__ <;> cases c.ZEXT_MISSING <;> simp [hv]
  · intro c' h1 h2 h3 h4 h5 h6
    rw [FIX_CLANG_after, FIX_CLANG_after, ZEXT_MISSING_after, ZEXT_MISSING_after,
      h1, h2, h3, h4, h5, h6]
    exact ⟨rfl, rfl⟩

/-- C16 at the Clang build in MSVC-compatible mode and the GCC 9.4 build. -/
theorem workaround_flags_witness :
    (instrset_h clang_cl_avx2).macros.FIX_CLANG_VECTOR_ALIAS_AMBIGUITY = true ∧
      (instrset_h gcc9).macros.ZEXT_MISSING = true :=
  ⟨(workaround_flags clang_cl_avx2).1.mpr (Or.inr ⟨Or.inl rfl, rfl⟩),
    (workaround_flags gcc9).2.1.mpr (Or.inr ⟨rfl, by decide, rfl⟩)⟩

/-- C17: with no level supplied and `_M_IX86_FP` absent or 0, 1 or 2, the resolved level
lies between 0 and 10, and it is 9 or 10 only if `__AVX512F__` or `__AVX512__` is
defined or `__AVX512VL__`, `__AVX512BW__` and `__AVX512DQ__` all are. -/
theorem detected_level_range (c : Macros) (h : c.INSTRSET = none)
    (hfp : c._M_IX86_FP = none ∨ c._M_IX86_FP = some 0 ∨ c._M_IX86_FP = some 1 ∨
      c._M_IX86_FP = some 2) :
    (0 ≤ resolvedLevel c ∧ resolvedLevel c ≤ 10) ∧
    ((resolvedLevel c = 9 ∨ resolvedLevel c = 10) →
      (c.__AVX512F__ = true ∨ c.__AVX512__ = true ∨
        (c.__AVX512VL__ = true ∧ c.__AVX512BW__ = true ∧ c.__AVX512DQ__ = true))) := by
  have hf : 0 ≤ value c._M_IX86_FP ∧ value c._M_IX86_FP ≤ 2 := by
    rcases hfp with h0 | h0 | h0 | h0 <;> rw [h0] <;> decide
  rw [resolvedLevel_detect c h]
  rcases chain_cases (tier c) (value c._M_IX86_FP) with ⟨k, hk1, hk10, ht, he⟩ | ⟨_, he⟩
  · rw [he]
    refine ⟨⟨by omega, by omega⟩, ?_⟩
    rintro (h9 | h10)
    · obtain rfl : k = 9 := by omega
      have : (c.__AVX512F__ || c.__AVX512__) = true := ht
      rcases Bool.or_eq_true_iff.mp this with h | h
      · exact Or.inl h
      · exact Or.inr (Or.inl h)
    · obtain rfl : k = 10 := by omega
      have : (c.__AVX512VL__ && c.__AVX512BW__ && c.__AVX512DQ__) = true := ht
      simp only [Bool.and_eq_true] at this
      exact Or.inr (Or.inr ⟨this.1.1, this.1.2, this.2⟩)
  · rw [he]
    refine ⟨⟨hf.1, by omega⟩, ?_⟩
    rintro (h9 | h10) <;> omega

/-- C17 at the 32-bit Microsoft build with `/arch:SSE2`, where `_M_IX86_FP` is 2. -/
theorem detected_level_range_witness :
    (0 ≤ resolvedLevel msvc32_sse2 ∧ resolvedLevel msvc32_sse2 ≤ 10) ∧
    ((resolvedLevel msvc32_sse2 = 9 ∨ resolvedLevel msvc32_sse2 = 10) →
      (msvc32_sse2.__AVX512F__ = true ∨ msvc32_sse2.__AVX512__ = true ∨
        (msvc32_sse2.__AVX512VL__ = true ∧ msvc32_sse2.__AVX512BW__ = true ∧
          msvc32_sse2.__AVX512DQ__ = true))) :=
  detected_level_range msvc32_sse2 rfl (Or.inr (Or.inr (Or.inr rfl)))

end InstrSet
